import Mathlib

/-!
Verification of the LLM hardware calculator (calculator.js and gpuData.js).

The JavaScript sources are shallowly embedded: JS numbers become exact
rationals, strings stay strings, objects become structures, and the
fallible entry points return `Option`.  `Math.round`, `Math.ceil` and
`Number.prototype.toFixed(2)` are modelled by their ECMAScript
definitions on rationals (round to nearest, ties toward positive
infinity).
-/

/-- JS `parseFloat(x.toFixed(2))` on an exact rational: round to the nearest
multiple of 1/100, ties toward the larger value (ECMAScript `toFixed`). -/
def toFixed2 (x : ℚ) : ℚ := (⌊x * 100 + 1/2⌋ : ℤ) / 100

/-- JS `Math.round`: round to the nearest integer, ties toward positive
infinity. -/
def jsRound (x : ℚ) : ℤ := ⌊x + 1/2⌋

/-- JS `Math.round(x * 10) / 10`, the 1-decimal rounding used by
`processGpuData`. -/
def round1dp (x : ℚ) : ℚ := (jsRound (x * 10) : ℤ) / 10

/-- JS `Math.ceil`. -/
def jsCeil (x : ℚ) : ℤ := ⌈x⌉

/-- calculator.js `getBytesPerParameter`: bytes per parameter for each
quantization tag; the JS `switch` (with its fall-through case groups)
becomes a match, and the default branch returns 2. -/
def getBytesPerParameter (quantization : String) : ℚ :=
  match quantization with
  | "FP32" => 4
  | "FP16" | "BF16" => 2
  | "INT8" | "FP8" | "E5M2" | "E4M3" => 1
  | "INT5" => 5/8
  | "INT4" | "NF4" | "GPTQ4" => 1/2
  | "INT3" => 3/8
  | "INT2" => 1/4
  | "GGUF_Q4_0" | "GGUF_Q4_1" => 1/2
  | "GGUF_Q5_0" | "GGUF_Q5_1" => 5/8
  | "GGUF_Q8_0" => 1
  | "GGUF_Q2_K" => 1/4
  | "GGUF_Q3_K" => 3/8
  | "GGUF_Q6_K" => 3/4
  | _ => 2

/-- The quantization tags carrying an explicit case in the JS `switch`;
anything else takes the default branch. -/
def knownQuantizationTags : List String :=
  ["FP32", "FP16", "BF16", "INT8", "FP8", "E5M2", "E4M3", "INT5", "INT4",
   "NF4", "GPTQ4", "INT3", "INT2", "GGUF_Q4_0", "GGUF_Q4_1", "GGUF_Q5_0",
   "GGUF_Q5_1", "GGUF_Q8_0", "GGUF_Q2_K", "GGUF_Q3_K", "GGUF_Q6_K"]

/-- calculator.js `calculateModelSizeGB`. -/
def calculateModelSizeGB (modelParams bytesPerParam : ℚ) : ℚ :=
  (modelParams * 1000000000 * bytesPerParam) / (1024 * 1024 * 1024)

/-- calculator.js `estimateLayers`. -/
def estimateLayers (modelParams : ℚ) : ℚ :=
  if modelParams ≤ 1 then 12
  else if modelParams ≤ 7 then 32
  else if modelParams ≤ 13 then 40
  else if modelParams ≤ 70 then 80
  else 96

/-- calculator.js `estimateHiddenDim`. -/
def estimateHiddenDim (modelParams : ℚ) : ℚ :=
  if modelParams ≤ 1 then 768
  else if modelParams ≤ 7 then 4096
  else if modelParams ≤ 13 then 5120
  else if modelParams ≤ 70 then 8192
  else 12288

/-- calculator.js `calculateKVCacheGB`. -/
def calculateKVCacheGB (contextLength layers hiddenDim bytesPerParam batchSize : ℚ) : ℚ :=
  (2 * layers * hiddenDim * contextLength * batchSize * bytesPerParam) / (1024 * 1024 * 1024)

/-- calculator.js `calculateActivationGB`. -/
def calculateActivationGB (modelSizeGB : ℚ) : ℚ :=
  modelSizeGB * 0.2

/-- The `assumptions` sub-object returned by `calculateHardware`. -/
structure HardwareAssumptions where
  estLayers : ℚ
  estHiddenDim : ℚ
  bytesPerParam : ℚ
  osOverheadGB : ℚ
  activationFactor : ℚ
deriving DecidableEq, Repr

/-- The object returned by calculator.js `calculateHardware`. -/
structure HardwareResult where
  modelSizeGB : ℚ
  kvCacheGB : ℚ
  activationGB : ℚ
  overheadGB : ℚ
  vramMinGB : ℚ
  vramRecGB : ℚ
  ramMinGB : ℚ
  ramRecGB : ℚ
  assumptions : HardwareAssumptions
deriving DecidableEq, Repr

/-- calculator.js `calculateHardware` (the version under `src/`, which
handles the discrete-memory path only). -/
def calculateHardware (modelParams : ℚ) (quantization : String)
    (contextLength batchSize : ℚ) : HardwareResult :=
  let bytesPerParam := getBytesPerParameter quantization
  let modelSizeGB := calculateModelSizeGB modelParams bytesPerParam
  let estLayers := estimateLayers modelParams
  let estHiddenDim := estimateHiddenDim modelParams
  let kvCacheGB := calculateKVCacheGB contextLength estLayers estHiddenDim bytesPerParam batchSize
  let activationGB := calculateActivationGB modelSizeGB
  let fixedOverheadGB : ℚ := 1.5
  let vramMinGB := modelSizeGB + fixedOverheadGB
  let vramRecGB := modelSizeGB + kvCacheGB + activationGB + fixedOverheadGB
  let osOverheadGB : ℚ := 4
  let ramMinGB := modelSizeGB + osOverheadGB
  let ramRecGB := ramMinGB * 1.2
  { modelSizeGB := toFixed2 modelSizeGB
    kvCacheGB := toFixed2 kvCacheGB
    activationGB := toFixed2 activationGB
    overheadGB := fixedOverheadGB
    vramMinGB := toFixed2 vramMinGB
    vramRecGB := toFixed2 vramRecGB
    ramMinGB := toFixed2 ramMinGB
    ramRecGB := toFixed2 ramRecGB
    assumptions :=
      { estLayers := estLayers
        estHiddenDim := estHiddenDim
        bytesPerParam := bytesPerParam
        osOverheadGB := osOverheadGB
        activationFactor := 0.2 } }

/-- The result object of the unified-memory branch of the estimator. -/
structure UnifiedHardwareResult where
  modelSizeGB : ℚ
  kvCacheGB : ℚ
  activationGB : ℚ
  overheadGB : ℚ
  vramMinGB : ℚ
  vramRecGB : ℚ
  ramMinGB : ℚ
  ramRecGB : ℚ
  unifiedMemoryMax : ℚ
  minExceedsLimit : Bool
  recExceedsLimit : Bool
  originalUnifiedMinGB : ℚ
  originalUnifiedRecGB : ℚ
deriving DecidableEq, Repr

/-- Modelled from the spec: the unified-memory branch of `calculateHardware`
is not present under `src/` — only its callers are (App.jsx invokes
`calculateHardware(..., isUnifiedMemory, 1)` and renders
`results.unifiedMemoryMax`, `results.originalUnifiedMinGB`,
`results.minExceedsLimit`, ...).  This definition follows the spec, §4.3
steps 1–6 and 8: both overheads apply once to the shared pool, both figures
are capped at `unifiedMemoryMax = 512`, the capping is recorded in the two
flags, and outputs are rounded to 2 decimal places. -/
def calculateHardwareUnified (modelParams : ℚ) (quantization : String)
    (contextLength batchSize : ℚ) : UnifiedHardwareResult :=
  let bytesPerParam := getBytesPerParameter quantization
  let modelSizeGB := calculateModelSizeGB modelParams bytesPerParam
  let estLayers := estimateLayers modelParams
  let estHiddenDim := estimateHiddenDim modelParams
  let kvCacheGB := calculateKVCacheGB contextLength estLayers estHiddenDim bytesPerParam batchSize
  let activationGB := calculateActivationGB modelSizeGB
  let fixedOverheadGB : ℚ := 1.5
  let osOverheadGB : ℚ := 4
  let unifiedMemoryMax : ℚ := 512
  let originalUnifiedMinGB := modelSizeGB + fixedOverheadGB + osOverheadGB
  let originalUnifiedRecGB :=
    modelSizeGB + kvCacheGB + activationGB + fixedOverheadGB + osOverheadGB
  let cappedMin := min originalUnifiedMinGB unifiedMemoryMax
  let cappedRec := min originalUnifiedRecGB unifiedMemoryMax
  { modelSizeGB := toFixed2 modelSizeGB
    kvCacheGB := toFixed2 kvCacheGB
    activationGB := toFixed2 activationGB
    overheadGB := fixedOverheadGB
    vramMinGB := toFixed2 cappedMin
    vramRecGB := toFixed2 cappedRec
    ramMinGB := toFixed2 cappedMin
    ramRecGB := toFixed2 cappedRec
    unifiedMemoryMax := unifiedMemoryMax
    minExceedsLimit := decide (unifiedMemoryMax < originalUnifiedMinGB)
    recExceedsLimit := decide (unifiedMemoryMax < originalUnifiedRecGB)
    originalUnifiedMinGB := originalUnifiedMinGB
    originalUnifiedRecGB := originalUnifiedRecGB }

/-- ASCII lowercase on a character; JS `toLowerCase` restricted to the
ASCII range, which covers every string the GPU pipeline handles. -/
def asciiLower (c : Char) : Char :=
  if 65 ≤ c.toNat ∧ c.toNat ≤ 90 then Char.ofNat (c.toNat + 32) else c

/-- JS `String.prototype.toLowerCase` (ASCII). -/
def jsToLower (s : String) : String := String.mk (s.data.map asciiLower)

/-- Character-list prefix test (the building block of `includes`). -/
def isPrefixChars : List Char → List Char → Bool
  | [], _ => true
  | _ :: _, [] => false
  | a :: as, b :: bs => a = b && isPrefixChars as bs

/-- Substring test on character lists. -/
def containsSub (pat : List Char) : List Char → Bool
  | [] => isPrefixChars pat []
  | c :: t => isPrefixChars pat (c :: t) || containsSub pat t

/-- JS `String.prototype.includes`. -/
def strIncludes (s sub : String) : Bool := containsSub sub.data s.data

/-- JS word character (regex `\w`): letters, digits, underscore. -/
def isWordChar (c : Char) : Bool :=
  (97 ≤ c.toNat && c.toNat ≤ 122) || (65 ≤ c.toNat && c.toNat ≤ 90) ||
  (48 ≤ c.toNat && c.toNat ≤ 57) || c = '_'

/-- JS digit (regex `\d`). -/
def isDigitChar (c : Char) : Bool := 48 ≤ c.toNat && c.toNat ≤ 57

/-- JS whitespace (regex `\s`), restricted to the ASCII whitespace
characters that can occur in the catalog strings. -/
def isJsWs (c : Char) : Bool :=
  c = ' ' || c = '\t' || c = '\n' || c = '\r' || c = Char.ofNat 11 || c = Char.ofNat 12

/-- Word boundary before the current position (`\b` with the previous
character, or start of string). -/
def boundaryBefore : Option Char → Bool
  | none => true
  | some p => !isWordChar p

/-- Word boundary after four digits (`\b` with the next character, or end
of string). -/
def boundaryAfter : List Char → Bool
  | [] => true
  | c :: _ => !isWordChar c

/-- Tail of the regex `\bw\d{4}\b`: exactly four digits then a boundary. -/
def fourDigitsThenBoundary : List Char → Bool
  | d1 :: d2 :: d3 :: d4 :: rest =>
    isDigitChar d1 && isDigitChar d2 && isDigitChar d3 && isDigitChar d4 &&
      boundaryAfter rest
  | _ => false

/-- Scanner for the regex test `/\bw\d{4}\b/.test(name)` used for the AMD
W series; `prev` is the character before the scan position. -/
def testWSeries : Option Char → List Char → Bool
  | _, [] => false
  | prev, c :: rest =>
    (boundaryBefore prev && c = 'w' && fourDigitsThenBoundary rest) ||
      testWSeries (some c) rest

/-- A normalized GPU catalog entry as consumed by the recommendation engine
(gpuData.js).  Discrete entries in the JS data simply lack the `isUnified`
key, which reads back as the falsy `undefined`; `false` models that. -/
structure Gpu where
  name : String
  vendor : String
  vram : ℚ
  isUnified : Bool
deriving DecidableEq, Repr

/-- gpuData.js `isWorkstationGpu`. -/
def isWorkstationGpu (gpu : Gpu) : Bool :=
  let name := jsToLower gpu.name
  let nvidiaProMatch :=
    strIncludes name "rtx a" || strIncludes name "tesla" || strIncludes name "quadro" ||
    strIncludes name "a100" || strIncludes name "h100" || strIncludes name "a40" ||
    strIncludes name "a30" || strIncludes name "a10" || strIncludes name "a16" ||
    strIncludes name "a2" || strIncludes name "t4" || strIncludes name "v100"
  let amdProMatch :=
    strIncludes name "radeon pro" || strIncludes name "firepro" ||
    strIncludes name "radeon instinct" ||
    (strIncludes name "w" && testWSeries none name.data)
  let intelProMatch := strIncludes name "xeon"
  let generalProMatch :=
    strIncludes name "workstation" || strIncludes name "professional" ||
    strIncludes name "datacenter"
  nvidiaProMatch || amdProMatch || intelProMatch || generalProMatch

/-- gpuData.js `estimateGpuPerformance`. -/
def estimateGpuPerformance (gpu : Gpu) : ℚ :=
  let name := jsToLower gpu.name
  let vendor := jsToLower gpu.vendor
  let base := gpu.vram * 10
  let archBonus : ℚ :=
    if strIncludes name "rtx" then
      if strIncludes name "40" then 200
      else if strIncludes name "30" then 150
      else if strIncludes name "20" then 100
      else 0
    else 0
  let amdBonus : ℚ :=
    if strIncludes name "radeon" || strIncludes name "rx" then
      if strIncludes name "7" then 180
      else if strIncludes name "6" then 130
      else if strIncludes name "5" then 80
      else 0
    else 0
  let wsBonus : ℚ :=
    if isWorkstationGpu gpu then
      50 + (if strIncludes name "a100" then (300:ℚ)
            else if strIncludes name "h100" then 400
            else if strIncludes name "a6000" then 250
            else 0)
    else 0
  let appleBonus : ℚ :=
    if strIncludes vendor "apple" && (strIncludes name "m2" || strIncludes name "m3") then
      100 + (if strIncludes name "max" || strIncludes name "ultra" then (50:ℚ) else 0)
    else 0
  base + archBonus + amdBonus + wsBonus + appleBonus

/-- gpuData.js `calculateEfficiencyScore`. -/
def calculateEfficiencyScore (gpu : Gpu) (requiredVram : ℚ) : ℚ :=
  if gpu.vram = 0 ∨ gpu.vram < requiredVram then 0
  else
    let name := jsToLower gpu.name
    let vendor := jsToLower gpu.vendor
    let vramUtilization := requiredVram / gpu.vram
    let base := 100 * vramUtilization
    let consumerBonus : ℚ := if !isWorkstationGpu gpu then 50 else 0
    let rtxBonus : ℚ :=
      if strIncludes name "rtx" then
        if strIncludes name "40" then 40
        else if strIncludes name "30" then 30
        else if strIncludes name "20" then 20
        else 0
      else 0
    let rxBonus : ℚ :=
      if strIncludes name "radeon" || strIncludes name "rx" then
        if strIncludes name "7" then 35
        else if strIncludes name "6" then 25
        else 0
      else 0
    let appleBonus : ℚ :=
      if strIncludes vendor "apple" && (strIncludes name "m2" || strIncludes name "m3") then 60
      else 0
    base + consumerBonus + rtxBonus + rxBonus + appleBonus

/-- Stable insertion step for `sortJs`. -/
def insertLe {α : Type} (le : α → α → Bool) (a : α) : List α → List α
  | [] => [a]
  | b :: bs => if le a b then a :: b :: bs else b :: insertLe le a bs

/-- JS `Array.prototype.sort` with a consistent comparator `c` is a stable
sort and hence has a unique result; we model it with a stable insertion
sort, where `le a b` stands for `c(a, b) ≤ 0` (a may stay before b). -/
def sortJs {α : Type} (le : α → α → Bool) : List α → List α
  | [] => []
  | x :: xs => insertLe le x (sortJs le xs)

/-- One candidate configuration built by `recommendOptimalGpuSetup`.  The
source stores `performance: estimateGpuPerformance(gpu) * Math.sqrt(count)`;
since the square root is irrational we carry the pair `(perfBase,
perfCount)` and comparators compare squares, which is equivalent because
every score the engine builds has `0 ≤ perfBase` and `1 ≤ perfCount`. -/
structure GpuSolution where
  gpu : Gpu
  count : ℤ
  totalVram : ℚ
  perfBase : ℚ
  perfCount : ℤ
  efficiency : ℚ
  meetsRecommended : Bool
deriving DecidableEq, Repr

/-- The `vramMinGB` / `vramRecGB` fields of the memory-requirement object
consumed by the recommendation engine (`|| 0` in the source is the
identity on rationals, since only 0 is falsy). -/
structure MemoryRequirements where
  vramMinGB : ℚ
  vramRecGB : ℚ
deriving DecidableEq, Repr

/-- The three-slot result of the recommendation engine. -/
structure GpuRecommendationSet where
  optimal : Option GpuSolution
  performance : Option GpuSolution
  budget : Option GpuSolution
  isUnifiedMemory : Bool
deriving DecidableEq, Repr

/-- Comparator `(a, b) => b.performance - a.performance` (descending), on
the square encoding of `perfBase * sqrt perfCount`. -/
def perfDescLe (a b : GpuSolution) : Bool :=
  decide (b.perfBase ^ 2 * (b.perfCount : ℚ) ≤ a.perfBase ^ 2 * (a.perfCount : ℚ))

/-- Comparator of `optimalSolutions`: count ascending, then efficiency
descending. -/
def optimalDescLe (a b : GpuSolution) : Bool :=
  if a.count = b.count then decide (b.efficiency ≤ a.efficiency)
  else decide (a.count ≤ b.count)

/-- Comparator of `budgetSolutions`: adequate-VRAM solutions first, then
efficiency descending. -/
def budgetDescLe (requiredVramRec : ℚ) (a b : GpuSolution) : Bool :=
  if requiredVramRec ≤ a.totalVram ∧ b.totalVram < requiredVramRec then true
  else if a.totalVram < requiredVramRec ∧ requiredVramRec ≤ b.totalVram then false
  else decide (b.efficiency ≤ a.efficiency)

/-- Comparator of `optimalDevices` in the unified path: meets-recommended
first, then performance descending. -/
def unifiedOptimalLe (a b : GpuSolution) : Bool :=
  if a.meetsRecommended ≠ b.meetsRecommended then a.meetsRecommended
  else perfDescLe a b

/-- Comparator of `budgetDevices` in the unified path: meets-recommended
first, then efficiency descending. -/
def unifiedBudgetLe (a b : GpuSolution) : Bool :=
  if a.meetsRecommended ≠ b.meetsRecommended then a.meetsRecommended
  else decide (b.efficiency ≤ a.efficiency)

/-- Comparator `(a, b) => b.vram - a.vram` (VRAM descending). -/
def vramDescLe (a b : Gpu) : Bool := decide (b.vram ≤ a.vram)

/-- The `singleGpuSolutions` of `recommendOptimalGpuSetup`: single devices
already meeting the recommended figure. -/
def singleGpuSolutions (requiredVramRec : ℚ) (sortedGpus : List Gpu) : List GpuSolution :=
  (sortedGpus.filter fun gpu => decide (requiredVramRec ≤ gpu.vram)).map fun gpu =>
    { gpu := gpu, count := 1, totalVram := gpu.vram,
      perfBase := estimateGpuPerformance gpu, perfCount := 1,
      efficiency := calculateEfficiencyScore gpu requiredVramRec,
      meetsRecommended := true }

/-- The multi-device configuration built for a device that cannot meet the
recommended figure alone: `count = ceil(rec / vram)` capped at 16. -/
def multiGpuSolution (requiredVramRec : ℚ) (gpu : Gpu) : GpuSolution :=
  let count := jsCeil (requiredVramRec / gpu.vram)
  let actualCount := min count 16
  { gpu := gpu, count := actualCount, totalVram := gpu.vram * (actualCount : ℚ),
    perfBase := estimateGpuPerformance gpu, perfCount := actualCount,
    efficiency := calculateEfficiencyScore gpu (requiredVramRec / (actualCount : ℚ)),
    meetsRecommended := decide (requiredVramRec ≤ gpu.vram * (actualCount : ℚ)) }

/-- The `multiGpuSolutions` of `recommendOptimalGpuSetup`: the best (most
VRAM) device multiplied up when it cannot meet the recommended figure. -/
def multiGpuSolutions (requiredVramRec : ℚ) (sortedGpus : List Gpu) : List GpuSolution :=
  match sortedGpus.head? with
  | some bestGpu =>
    if 0 < bestGpu.vram ∧ bestGpu.vram < requiredVramRec then
      [multiGpuSolution requiredVramRec bestGpu]
    else []
  | none => []

/-- The `minimumGpuSolutions` of `recommendOptimalGpuSetup`.  The source
filters `sortedGpus` with `gpu !== bestGpu`, which excludes exactly the
array position 0 (object identity); dropping the head models that. -/
def minimumGpuSolutions (requiredVramMin requiredVramRec : ℚ)
    (sortedGpus : List Gpu) : List GpuSolution :=
  ((sortedGpus.drop 1).filter fun gpu =>
      decide (requiredVramMin ≤ gpu.vram) && decide (gpu.vram < requiredVramRec)).map
    fun gpu => multiGpuSolution requiredVramRec gpu

/-- The combined `allSolutions` list. -/
def allGpuSolutions (requiredVramMin requiredVramRec : ℚ)
    (sortedGpus : List Gpu) : List GpuSolution :=
  singleGpuSolutions requiredVramRec sortedGpus ++
    multiGpuSolutions requiredVramRec sortedGpus ++
    minimumGpuSolutions requiredVramMin requiredVramRec sortedGpus

/-- The `recommendedDevices` of `recommendUnifiedMemorySetup`: unified
devices meeting the recommended figure, single units. -/
def unifiedRecommendedDevices (requiredMemoryRec : ℚ)
    (unifiedDevices : List Gpu) : List GpuSolution :=
  (unifiedDevices.filter fun gpu => decide (requiredMemoryRec ≤ gpu.vram)).map fun gpu =>
    { gpu := gpu, count := 1, totalVram := gpu.vram,
      perfBase := estimateGpuPerformance gpu, perfCount := 1,
      efficiency := calculateEfficiencyScore gpu requiredMemoryRec,
      meetsRecommended := true }

/-- The `minimumDevices` of `recommendUnifiedMemorySetup`: unified devices
meeting only the minimum figure. -/
def unifiedMinimumDevices (requiredMemoryMin requiredMemoryRec : ℚ)
    (unifiedDevices : List Gpu) : List GpuSolution :=
  (unifiedDevices.filter fun gpu =>
      decide (requiredMemoryMin ≤ gpu.vram) && decide (gpu.vram < requiredMemoryRec)).map
    fun gpu =>
    { gpu := gpu, count := 1, totalVram := gpu.vram,
      perfBase := estimateGpuPerformance gpu, perfCount := 1,
      efficiency := calculateEfficiencyScore gpu requiredMemoryMin,
      meetsRecommended := false }

/-- The combined `allDevices` list of the unified path. -/
def unifiedAllDevices (requiredMemoryMin requiredMemoryRec : ℚ)
    (unifiedDevices : List Gpu) : List GpuSolution :=
  unifiedRecommendedDevices requiredMemoryRec unifiedDevices ++
    unifiedMinimumDevices requiredMemoryMin requiredMemoryRec unifiedDevices

/-- gpuData.js `recommendUnifiedMemorySetup`. -/
def recommendUnifiedMemorySetup (memoryRequirements : MemoryRequirements)
    (availableGpus : List Gpu) : GpuRecommendationSet :=
  let requiredMemoryMin := memoryRequirements.vramMinGB
  let requiredMemoryRec := memoryRequirements.vramRecGB
  let unifiedDevices := availableGpus.filter fun gpu =>
    gpu.isUnified && decide (requiredMemoryMin ≤ gpu.vram)
  if unifiedDevices.length = 0 then
    { optimal := none, performance := none, budget := none, isUnifiedMemory := true }
  else
    let allDevices := unifiedAllDevices requiredMemoryMin requiredMemoryRec unifiedDevices
    if allDevices.length = 0 then
      { optimal := none, performance := none, budget := none, isUnifiedMemory := true }
    else
      { optimal := (sortJs unifiedOptimalLe allDevices).head?
        performance := (sortJs perfDescLe allDevices).head?
        budget := (sortJs unifiedBudgetLe allDevices).head?
        isUnifiedMemory := true }

/-- The discrete (non-unified) body of `recommendOptimalGpuSetup`; the
`isUnifiedMemory` flag placed in the result is necessarily `false` on this
path. -/
def recommendDiscreteSetup (mr : MemoryRequirements) (gpus : List Gpu) : GpuRecommendationSet :=
  let requiredVramMin := mr.vramMinGB
  let requiredVramRec := mr.vramRecGB
  let compatibleGpus := gpus.filter fun gpu => !gpu.isUnified && decide (0 < gpu.vram)
  let sortedGpus := sortJs vramDescLe compatibleGpus
  if compatibleGpus.length = 0 then
    { optimal := none, performance := none, budget := none, isUnifiedMemory := false }
  else
    let allSols := allGpuSolutions requiredVramMin requiredVramRec sortedGpus
    if allSols.length = 0 then
      match sortedGpus.head? with
      | some bestMinimumGpu =>
        let minimumSolution : GpuSolution :=
          { gpu := bestMinimumGpu, count := 1, totalVram := bestMinimumGpu.vram,
            perfBase := estimateGpuPerformance bestMinimumGpu, perfCount := 1,
            efficiency := calculateEfficiencyScore bestMinimumGpu requiredVramMin,
            meetsRecommended := false }
        { optimal := some minimumSolution, performance := some minimumSolution,
          budget := some minimumSolution, isUnifiedMemory := false }
      | none =>
        { optimal := none, performance := none, budget := none, isUnifiedMemory := false }
    else
      { optimal := (sortJs optimalDescLe allSols).head?
        performance := (sortJs perfDescLe allSols).head?
        budget := (sortJs (budgetDescLe requiredVramRec) allSols).head?
        isUnifiedMemory := false }

/-- gpuData.js `recommendOptimalGpuSetup`. -/
def recommendOptimalGpuSetup (memoryRequirements : Option MemoryRequirements)
    (availableGpus : Option (List Gpu)) (isUnifiedMemory : Bool) : GpuRecommendationSet :=
  match memoryRequirements, availableGpus with
  | some mr, some gpus =>
    if gpus.length = 0 then
      { optimal := none, performance := none, budget := none, isUnifiedMemory := isUnifiedMemory }
    else
      if isUnifiedMemory then recommendUnifiedMemorySetup mr gpus
      else recommendDiscreteSetup mr gpus
  | _, _ =>
    { optimal := none, performance := none, budget := none, isUnifiedMemory := isUnifiedMemory }

/-- A JSON-ish field value in the raw catalog: a number or a string.  The
rationals carry no NaN; the source's NaN guards are vacuous here. -/
inductive JsVal where
  | num (q : ℚ)
  | str (s : String)
deriving DecidableEq, Repr

/-- JS truthiness of an optional field value (absent and null collapse to
`none`). -/
def jsTruthy : Option JsVal → Bool
  | none => false
  | some (.num q) => decide (q ≠ 0)
  | some (.str s) => decide (s ≠ "")

/-- A raw record of the fetched catalog: `Model` may degenerately hold a
number, `Vendor` and `Launch` are strings when present, and the remaining
keys (the memory fields) are looked up by name. -/
structure RawGpu where
  Model : Option JsVal
  Vendor : Option String
  Launch : Option String
  fields : String → Option JsVal

/-- The memory field names probed by `extractMemorySize`, in priority
order. -/
def memoryFields : List String :=
  ["Memory Size (GB)", "Memory Size", "Memory (GB)", "Memory", "VRAM",
   "Video RAM", "Graphics Memory", "Video Memory", "VRAM Size", "Memory.Size"]

/-- How many characters the ordered alternation `GB|GiB|G|MB|MiB`
(case-insensitive) consumes at the head of the list; `none` when it does
not match.  The length only matters for where a global scan resumes. -/
def unitLen : List Char → Option Nat
  | [] => none
  | c :: rest =>
    if asciiLower c = 'g' then
      match rest with
      | [] => some 1
      | d :: rest2 =>
        if asciiLower d = 'b' then some 2
        else if asciiLower d = 'i' then
          match rest2 with
          | [] => some 1
          | e :: _ => if asciiLower e = 'b' then some 3 else some 1
        else some 1
    else if asciiLower c = 'm' then
      match rest with
      | [] => none
      | d :: rest2 =>
        if asciiLower d = 'b' then some 2
        else if asciiLower d = 'i' then
          match rest2 with
          | [] => none
          | e :: _ => if asciiLower e = 'b' then some 3 else none
        else none
    else none

/-- Acceptance of the unit alternation at the head of the list. -/
def unitHere (cs : List Char) : Bool := (unitLen cs).isSome

/-- JS `parseInt` on a pure digit run. -/
def digitsToNat (ds : List Char) : Nat :=
  ds.foldl (fun n c => n * 10 + (c.toNat - 48)) 0

/-- Scanner for pattern 1, `/(\d+)\s*(?:GB|GiB|G|MB|MiB)/i`: the leftmost
digit run followed by optional whitespace and a unit, returning the
captured number.  Shrinking the greedy `\d+` or `\s*` cannot rescue a
failed match (the next character would be a digit or a space, which no
unit starts with), so the scan needs no backtracking. -/
def scanBasic : List Char → Option Nat
  | [] => none
  | c :: rest =>
    if isDigitChar c then
      if unitHere (((c :: rest).dropWhile isDigitChar).dropWhile isJsWs) then
        some (digitsToNat ((c :: rest).takeWhile isDigitChar))
      else scanBasic rest
    else scanBasic rest

/-- Matcher, at one position, for patterns 2 and 3,
`/(\d+)\s*SEP\s*(\d+)\s*(?:GB|GiB|G|MB|MiB)/i` with SEP a hyphen or a
slash. -/
def sepPairAt (sep : Char) (cs : List Char) : Option (Nat × Nat) :=
  match cs with
  | [] => none
  | c :: _ =>
    if isDigitChar c then
      let d1 := cs.takeWhile isDigitChar
      let r1 := (cs.dropWhile isDigitChar).dropWhile isJsWs
      match r1 with
      | [] => none
      | s :: r2 =>
        if s = sep then
          let r3 := r2.dropWhile isJsWs
          match r3 with
          | [] => none
          | d :: _ =>
            if isDigitChar d then
              let d2 := r3.takeWhile isDigitChar
              let r4 := (r3.dropWhile isDigitChar).dropWhile isJsWs
              if unitHere r4 then some (digitsToNat d1, digitsToNat d2) else none
            else none
        else none
    else none

/-- Scanner for patterns 2 and 3 over all positions. -/
def scanSep (sep : Char) : List Char → Option (Nat × Nat)
  | [] => none
  | c :: rest =>
    match sepPairAt sep (c :: rest) with
    | some p => some p
    | none => scanSep sep rest

/-- Matcher, at one position, for a pattern-1 occurrence, returning the
captured number and the remainder after the consumed unit (for the global
scan of pattern 4). -/
def matchBasicAt : List Char → Option (Nat × List Char)
  | [] => none
  | c :: rest =>
    if isDigitChar c then
      let ds := (c :: rest).takeWhile isDigitChar
      let afterWs := ((c :: rest).dropWhile isDigitChar).dropWhile isJsWs
      match unitLen afterWs with
      | some k => some (digitsToNat ds, afterWs.drop k)
      | none => none
    else none

/-- Helper for termination: `dropWhile` does not grow a list. -/
theorem length_dropWhile_le {α : Type} (p : α → Bool) (l : List α) :
    (l.dropWhile p).length ≤ l.length := by
  induction l with
  | nil => simp
  | cons a t ih =>
    rw [List.dropWhile_cons]
    split
    · simp only [List.length_cons]
      omega
    · simp

/-- Helper for the termination of the global scan: a pattern-1 match
consumes at least one character. -/
theorem matchBasicAt_length {cs : List Char} {v : Nat} {r : List Char}
    (h : matchBasicAt cs = some (v, r)) : r.length < cs.length := by
  match cs with
  | [] => simp [matchBasicAt] at h
  | c :: rest =>
    rw [show matchBasicAt (c :: rest) =
      (if isDigitChar c then
        match unitLen (((c :: rest).dropWhile isDigitChar).dropWhile isJsWs) with
        | some k =>
          some (digitsToNat ((c :: rest).takeWhile isDigitChar),
            (((c :: rest).dropWhile isDigitChar).dropWhile isJsWs).drop k)
        | none => none
      else none) from rfl] at h
    by_cases hd : isDigitChar c = true
    · rw [if_pos hd] at h
      cases hu : unitLen (((c :: rest).dropWhile isDigitChar).dropWhile isJsWs) with
      | none => rw [hu] at h; simp at h
      | some k =>
        rw [hu] at h
        simp only [Option.some.injEq, Prod.mk.injEq] at h
        have hdw : (c :: rest).dropWhile isDigitChar = rest.dropWhile isDigitChar := by
          rw [List.dropWhile_cons_of_pos hd]
        have h1 : (((c :: rest).dropWhile isDigitChar).dropWhile isJsWs).length ≤ rest.length := by
          rw [hdw]
          exact le_trans (length_dropWhile_le _ _) (length_dropWhile_le _ _)
        have h2 : r.length ≤ (((c :: rest).dropWhile isDigitChar).dropWhile isJsWs).length := by
          rw [← h.2, List.length_drop]
          omega
        simp only [List.length_cons]
        omega
    · rw [if_neg hd] at h
      simp at h

/-- Scanner for pattern 4, the global `/(\d+)\s*(?:GB|GiB|G|MB|MiB)/gi`:
all non-overlapping matches, each scan resuming after the previous
match. -/
def scanAllBasic (cs : List Char) : List Nat :=
  match cs with
  | [] => []
  | c :: rest =>
    match hm : matchBasicAt (c :: rest) with
    | some (v, remainder) => v :: scanAllBasic remainder
    | none => scanAllBasic rest
termination_by cs.length
decreasing_by
  · exact matchBasicAt_length hm
  · simp

/-- Scanner for pattern 5, `/(\d+)/`: the first digit run. -/
def scanFirstNumber : List Char → Option Nat
  | [] => none
  | c :: rest =>
    if isDigitChar c then some (digitsToNat ((c :: rest).takeWhile isDigitChar))
    else scanFirstNumber rest

/-- The string-field parsing chain of `extractMemorySize`: pattern 1
(number and unit), else pattern 2 (hyphen range, larger number), else
pattern 3 (slash alternatives, larger number), else pattern 4 (all
unit-suffixed numbers, largest), else pattern 5 (first number); `none`
when the string holds no digit at all, in which case the JS loop does not
break and moves to the next field. -/
def parseMemChars (cs : List Char) : Option ℚ :=
  match scanBasic cs with
  | some n => some (n : ℚ)
  | none =>
    match scanSep '-' cs with
    | some (a, b) => some ((max a b : ℕ) : ℚ)
    | none =>
      match scanSep '/' cs with
      | some (a, b) => some ((max a b : ℕ) : ℚ)
      | none =>
        match scanAllBasic cs with
        | [] =>
          match scanFirstNumber cs with
          | some n => some (n : ℚ)
          | none => none
        | v :: vs => some (((v :: vs).foldl max 0 : ℕ) : ℚ)

/-- The string-field parser, on strings. -/
def parseMemString (s : String) : Option ℚ :=
  parseMemChars s.data

/-- The per-field step of the `extractMemorySize` loop: `none` exactly
when the JS loop moves on — the field is absent, null or the empty
string, or a string without any digit. -/
def memFieldValue (gpu : RawGpu) (field : String) : Option ℚ :=
  match gpu.fields field with
  | none => none
  | some (.num q) => some q
  | some (.str s) => if s = "" then none else parseMemString s

/-- The field loop of `extractMemorySize`: the first field whose step
yields a number wins (the JS `break`); otherwise 0 survives the loop. -/
def extractMemLoop (gpu : RawGpu) : List String → ℚ
  | [] => 0
  | field :: rest => (memFieldValue gpu field).getD (extractMemLoop gpu rest)

/-- gpuData.js `extractMemorySize` (its `memSize` component; the `source`
component only feeds logging).  Any extracted value above 100 is divided
by 1024 — the "might be MB" heuristic — regardless of the unit it was
parsed with. -/
def extractMemorySize (gpu : RawGpu) : ℚ :=
  let memSize := extractMemLoop gpu memoryFields
  if 100 < memSize then memSize / 1024 else memSize

/-- Acceptance of `gb` (case-insensitive) at the head of the list. -/
def gbHere : List Char → Bool
  | c :: d :: _ => asciiLower c = 'g' && asciiLower d = 'b'
  | _ => false

/-- Scanner for `/(\d+)\s*gb/i` in `inferMemorySizeFromModelName`. -/
def scanDirectGb : List Char → Option Nat
  | [] => none
  | c :: rest =>
    if isDigitChar c then
      let ds := (c :: rest).takeWhile isDigitChar
      let afterWs := ((c :: rest).dropWhile isDigitChar).dropWhile isJsWs
      if gbHere afterWs then some (digitsToNat ds) else scanDirectGb rest
    else scanDirectGb rest

/-- First-match lookup over (substring pattern, value) pairs: the exact
meaning of the source's sequential `if (model.includes(p)) return v;`
chains, with `a || b` conditions expanded into consecutive entries. -/
def firstIncludesMatch (m : String) : List (String × ℚ) → Option ℚ
  | [] => none
  | (pat, v) :: rest =>
    if strIncludes m pat then some v else firstIncludesMatch m rest

/-- The RTX chain of `inferMemorySizeFromModelName`. -/
def inferRtxTable : List (String × ℚ) :=
  [("4090", 24), ("4080", 16), ("4070 ti", 12), ("4070", 12), ("4060 ti", 8),
   ("4060", 8), ("3090 ti", 24), ("3090", 24), ("3080 ti", 12),
   ("3080 12gb", 12), ("3080", 10), ("3070 ti", 8), ("3070", 8),
   ("3060 ti", 8), ("3060", 12), ("2080 ti", 11), ("2080 super", 8),
   ("2080", 8), ("2070 super", 8), ("2070", 8), ("2060 super", 8),
   ("2060", 6)]

/-- The GTX chain of `inferMemorySizeFromModelName`. -/
def inferGtxTable : List (String × ℚ) :=
  [("1080 ti", 11), ("1080", 8), ("1070 ti", 8), ("1070", 8),
   ("1060 6gb", 6), ("1060", 3), ("1050 ti", 4), ("1050", 2), ("1650", 4),
   ("1660 ti", 6), ("1660 super", 6), ("1660", 6)]

/-- The Radeon RX chain of `inferMemorySizeFromModelName`. -/
def inferRxTable : List (String × ℚ) :=
  [("rx 7900 xtx", 24), ("rx 7900 xt", 20), ("rx 7800 xt", 16),
   ("rx 7700 xt", 12), ("rx 6950 xt", 16), ("rx 6900 xt", 16),
   ("rx 6800 xt", 16), ("rx 6800", 16), ("rx 6750 xt", 12),
   ("rx 6700 xt", 12), ("rx 6650 xt", 8), ("rx 6600 xt", 8), ("rx 6600", 8),
   ("rx 5700 xt", 8), ("rx 5700", 8), ("rx 5600 xt", 6), ("rx 5500 xt", 8)]

/-- The Quadro chain of `inferMemorySizeFromModelName`. -/
def inferQuadroTable : List (String × ℚ) :=
  [("rtx 8000", 48), ("rtx 6000", 24), ("rtx 5000", 16), ("rtx 4000", 8),
   ("p6000", 24), ("p5000", 16), ("p4000", 8)]

/-- The RTX block of `inferMemorySizeFromModelName` (no hit falls through
to the next block). -/
def inferRtx (m : String) : Option ℚ :=
  if strIncludes m "rtx" then firstIncludesMatch m inferRtxTable else none

/-- The GTX block of `inferMemorySizeFromModelName`. -/
def inferGtx (m : String) : Option ℚ :=
  if strIncludes m "gtx" then firstIncludesMatch m inferGtxTable else none

/-- The Radeon RX block of `inferMemorySizeFromModelName`. -/
def inferRx (m : String) : Option ℚ :=
  if strIncludes m "radeon" || strIncludes m "rx" then
    firstIncludesMatch m inferRxTable
  else none

/-- The Quadro block of `inferMemorySizeFromModelName`. -/
def inferQuadro (m : String) : Option ℚ :=
  if strIncludes m "quadro" then firstIncludesMatch m inferQuadroTable else none

/-- The Tesla / data-center block of `inferMemorySizeFromModelName`. -/
def inferTesla (m : String) : Option ℚ :=
  if strIncludes m "tesla" || strIncludes m "a100" || strIncludes m "v100" then
    if strIncludes m "a100" then some (if strIncludes m "80gb" then 80 else 40)
    else if strIncludes m "v100" then some (if strIncludes m "32gb" then 32 else 16)
    else if strIncludes m "a40" || strIncludes m "a40g" then some 48
    else if strIncludes m "a30" || strIncludes m "a30g" then some 24
    else if strIncludes m "a10" || strIncludes m "a10g" then some 24
    else none
  else none

/-- Two-level first-match lookup: the source's chains of
`if (model.includes(p)) { if (model.includes(q)) return w; ...; return d }`
— the outer pattern selects a row, then the row's inner pairs are probed
in order with a default when none hits. -/
def firstIncludesNested (m : String) :
    List (String × List (String × ℚ) × ℚ) → Option ℚ
  | [] => none
  | (pat, tbl, dflt) :: rest =>
    if strIncludes m pat then some ((firstIncludesMatch m tbl).getD dflt)
    else firstIncludesNested m rest

/-- The Apple chain of `inferMemorySizeFromModelName`: each row is the
outer `includes` pattern, the capacity-refinement pairs probed inside it,
and the default returned when no refinement hits. -/
def inferAppleTable : List (String × List (String × ℚ) × ℚ) :=
  [("m1 ultra", [("128", 128)], 64),
   ("m1 max", [("64", 64)], 32),
   ("m1 pro", [("32", 32)], 16),
   ("m1", [("16", 16)], 8),
   ("m2 ultra", [("192", 192), ("128", 128)], 64),
   ("m2 max", [("96", 96), ("64", 64)], 32),
   ("m2 pro", [("32", 32)], 16),
   ("m2", [("24", 24), ("16", 16)], 8),
   ("m3 ultra", [("192", 192)], 128),
   ("m3 max", [("128", 128), ("64", 64)], 36),
   ("m3 pro", [("36", 36)], 18),
   ("m3", [("24", 24), ("16", 16)], 8)]

/-- The Apple block of `inferMemorySizeFromModelName`. -/
def inferApple (m : String) : Option ℚ :=
  if strIncludes m "apple" then firstIncludesNested m inferAppleTable else none

/-- gpuData.js `inferMemorySizeFromModelName`: direct "NN GB" in the
name, else the block chain, else 0; non-string or empty input gives 0. -/
def inferMemorySizeFromModelName (modelName : Option JsVal) : ℚ :=
  match modelName with
  | some (.str s) =>
    if s = "" then 0
    else
      let model := jsToLower s
      match scanDirectGb model.data with
      | some n => (n : ℚ)
      | none =>
        ((((((inferRtx model).or (inferGtx model)).or (inferRx model)).or
          (inferQuadro model)).or (inferTesla model)).or (inferApple model)).getD 0
  | _ => 0

/-- Helper to strip an exact prefix of characters. -/
def stripPrefixChars : List Char → List Char → Option (List Char)
  | [], l => some l
  | _ :: _, [] => none
  | a :: as, b :: bs => if a = b then stripPrefixChars as bs else none

/-- Matcher, at one position, for `/PAT\s*(\d)/i` over a lowercased
input: the pattern, optional whitespace, one captured digit. -/
def patDigitAt (pat : List Char) (cs : List Char) : Option Nat :=
  match stripPrefixChars pat cs with
  | none => none
  | some rest =>
    match rest.dropWhile isJsWs with
    | [] => none
    | d :: _ => if isDigitChar d then some (d.toNat - 48) else none

/-- Scanner for `/PAT\s*(\d)/i` over all positions (the generation
fallbacks `/rtx\s*(\d)/i` and `/rx\s*(\d)/i`). -/
def scanPatDigit (pat : List Char) : List Char → Option Nat
  | [] => patDigitAt pat []
  | c :: rest =>
    match patDigitAt pat (c :: rest) with
    | some n => some n
    | none => scanPatDigit pat rest

/-- The RTX chain of `getVramFromGpuModel`, including the RTX 50-series
estimates and the generic per-generation entries. -/
def vramRtxTable : List (String × ℚ) :=
  [("5090", 32), ("5080", 24), ("5070", 16), ("5060", 12), ("50", 16),
   ("4090", 24), ("4080", 16), ("4070 ti", 12), ("4070", 12),
   ("4060 ti", 8), ("4060", 8), ("40", 12), ("3090 ti", 24), ("3090", 24),
   ("3080 ti", 12), ("3080 12gb", 12), ("3080", 10), ("3070 ti", 8),
   ("3070", 8), ("3060 ti", 8), ("3060", 12), ("30", 8), ("2080 ti", 11),
   ("2080 super", 8), ("2080", 8), ("2070 super", 8), ("2070", 8),
   ("2060 super", 8), ("2060", 6), ("20", 6)]

/-- The GTX chain of `getVramFromGpuModel`. -/
def vramGtxTable : List (String × ℚ) :=
  [("1080 ti", 11), ("1080", 8), ("1070 ti", 8), ("1070", 8),
   ("1060 6gb", 6), ("1060", 3), ("1650", 4), ("1660 ti", 6),
   ("1660 super", 6), ("1660", 6)]

/-- The Radeon RX chain of `getVramFromGpuModel`, including the RX
8000-series estimates and the generic per-generation entries. -/
def vramRxTable : List (String × ℚ) :=
  [("rx 8900", 32), ("rx 8800", 24), ("rx 8700", 16), ("rx 80", 24),
   ("rx 7900 xtx", 24), ("rx 7900 xt", 20), ("rx 7800 xt", 16),
   ("rx 7700 xt", 12), ("rx 70", 16), ("rx 6950 xt", 16),
   ("rx 6900 xt", 16), ("rx 6800 xt", 16), ("rx 6800", 16),
   ("rx 6750 xt", 12), ("rx 6700 xt", 12), ("rx 6650 xt", 8),
   ("rx 6600 xt", 8), ("rx 6600", 8), ("rx 60", 8), ("rx 5700 xt", 8),
   ("rx 5700", 8), ("rx 5600 xt", 6), ("rx 5500 xt", 8), ("rx 50", 8)]

/-- The professional-GPU chain of `getVramFromGpuModel` (or-conditions
expanded into consecutive entries). -/
def vramProTable : List (String × ℚ) :=
  [("a100", 80), ("h100", 80), ("a6000", 48), ("a5000", 24), ("a4000", 16),
   ("quadro", 16), ("rtx a", 16), ("tesla", 32), ("v100", 32)]

/-- The vendor fallback chain of `getVramFromGpuModel`. -/
def vramVendorTable : List (String × ℚ) :=
  [("nvidia", 8), ("amd", 8), ("intel arc", 8)]

/-- gpuData.js `getVramFromGpuModel`: the step-3 fallback database, keyed
on family and generation, with an absolute floor of 6 (and 4 for an empty
name). -/
def getVramFromGpuModel (modelName : String) : ℚ :=
  if modelName = "" then 4
  else
    let m := jsToLower modelName
    if strIncludes m "rtx" then
      match firstIncludesMatch m vramRtxTable with
      | some v => v
      | none =>
        match scanPatDigit ['r', 't', 'x'] m.data with
        | some gen =>
          if 5 ≤ gen then 24 else if 4 ≤ gen then 16 else if 3 ≤ gen then 10 else 8
        | none => 12
    else if strIncludes m "gtx" then
      (firstIncludesMatch m vramGtxTable).getD 4
    else if strIncludes m "radeon" || strIncludes m "rx" then
      match firstIncludesMatch m vramRxTable with
      | some v => v
      | none =>
        match scanPatDigit ['r', 'x'] m.data with
        | some gen =>
          if 8 ≤ gen then 24 else if 7 ≤ gen then 16 else if 6 ≤ gen then 12
          else if 5 ≤ gen then 8 else 8
        | none => 8
    else
      match firstIncludesMatch m vramProTable with
      | some v => v
      | none =>
        if strIncludes m "intel" && strIncludes m "max" then
          if strIncludes m "1550" then 128
          else if strIncludes m "1100" then 48
          else 48
        else (firstIncludesMatch m vramVendorTable).getD 6

/-- Matcher for the lazy parenthesized group after the opening paren:
characters up to the first close paren, none of them a line terminator
(JS `.` does not cross lines); returns the remainder after the close
paren. -/
def parenBody : List Char → Option (List Char)
  | [] => none
  | c :: rest =>
    if c = ')' then some rest
    else if c = '\n' ∨ c = '\r' then none
    else parenBody rest

/-- Matcher, at one position, for `/\s+\(.*?\)/`: at least one whitespace
character, an opening paren, then the lazy group; returns the remainder
after the match. -/
def matchParenGroupAt : List Char → Option (List Char)
  | [] => none
  | c :: rest =>
    if isJsWs c then
      match (c :: rest).dropWhile isJsWs with
      | [] => none
      | p :: rest2 => if p = '(' then parenBody rest2 else none
    else none

/-- Helper for termination: the lazy group body is a strict suffix. -/
theorem parenBody_length {cs r : List Char} (h : parenBody cs = some r) :
    r.length < cs.length := by
  induction cs with
  | nil => simp [parenBody] at h
  | cons c rest ih =>
    unfold parenBody at h
    by_cases hc : c = ')'
    · rw [if_pos hc] at h
      simp only [Option.some.injEq] at h
      simp [← h]
    · rw [if_neg hc] at h
      by_cases hn : c = '\n' ∨ c = '\r'
      · rw [if_pos hn] at h
        simp at h
      · rw [if_neg hn] at h
        have := ih h
        simp only [List.length_cons]
        omega

/-- Helper for termination: a parenthesized-group match consumes at least
one character. -/
theorem matchParenGroupAt_length {cs r : List Char}
    (h : matchParenGroupAt cs = some r) : r.length < cs.length := by
  match cs with
  | [] => simp [matchParenGroupAt] at h
  | c :: rest =>
    rw [show matchParenGroupAt (c :: rest) =
      (if isJsWs c then
        match (c :: rest).dropWhile isJsWs with
        | [] => none
        | p :: rest2 => if p = '(' then parenBody rest2 else none
      else none) from rfl] at h
    by_cases hw : isJsWs c = true
    · rw [if_pos hw] at h
      cases hd : (c :: rest).dropWhile isJsWs with
      | nil => rw [hd] at h; simp at h
      | cons p rest2 =>
        rw [hd] at h
        rw [show (match p :: rest2 with
            | [] => none
            | p :: rest2 => if p = '(' then parenBody rest2 else none) =
          (if p = '(' then parenBody rest2 else none) from rfl] at h
        by_cases hp : p = '('
        · rw [if_pos hp] at h
          have h1 := parenBody_length h
          have h2 : (p :: rest2).length ≤ rest.length + 1 := by
            rw [← hd]
            exact length_dropWhile_le _ _
          simp only [List.length_cons] at h1 h2 ⊢
          omega
        · rw [if_neg hp] at h
          simp at h
    · rw [if_neg hw] at h
      simp at h

/-- Fuelled worker for the parenthesized-group removal: the fuel only
keeps the recursion structural, and any fuel of at least the list length
is enough, since every step strictly shrinks the list. -/
def removeParenAux : Nat → List Char → List Char
  | 0, _ => []
  | _ + 1, [] => []
  | fuel + 1, c :: rest =>
    match matchParenGroupAt (c :: rest) with
    | some remainder => removeParenAux fuel remainder
    | none => c :: removeParenAux fuel rest

/-- JS `replace(/\s+\(.*?\)/g, '')`: remove every whitespace-plus-
parenthesized group, each scan resuming after the removed match. -/
def removeParenGroups (cs : List Char) : List Char :=
  removeParenAux cs.length cs

/-- JS `String.prototype.trim` (ASCII whitespace). -/
def jsTrim (s : String) : String :=
  String.mk (((s.data.dropWhile isJsWs).reverse.dropWhile isJsWs).reverse)

/-- JS `modelName.replace(new RegExp(`^VENDOR\s+`), '')`: strip the vendor
name and the following whitespace run when they form a prefix (the vendor
string is treated literally; the catalog vendors carry no regex
metacharacters). -/
def stripVendorPrefix (vendor : String) (model : List Char) : List Char :=
  match stripPrefixChars vendor.data model with
  | some rest =>
    match rest with
    | c :: _ => if isJsWs c then rest.dropWhile isJsWs else model
    | [] => model
  | none => model

/-- The model-name cleanup of `processGpuData` lines 142-151: strip a
duplicated vendor prefix, drop parenthesized groups, trim. -/
def cleanModelName (vendor : String) (model : String) : String :=
  let step1 :=
    if vendor ≠ "" ∧ strIncludes model vendor then
      String.mk (stripVendorPrefix vendor model.data)
    else model
  jsTrim (String.mk (removeParenGroups step1.data))

/-- A processed catalog entry.  The source id is the string
`${id}_${modelName}_${memSize}`; number-to-string formatting is outside
the rational model, so the id keeps its three components as a tuple. -/
structure GpuEntry where
  id : String × JsVal × ℚ
  name : JsVal
  vendor : String
  vram : ℚ
  launchDate : Option String
deriving DecidableEq, Repr

/-- Decidable equality of `Except` results (the instance is absent from
the core library). -/
instance {ε α : Type} [DecidableEq ε] [DecidableEq α] : DecidableEq (Except ε α) :=
  fun a b =>
    match a, b with
    | .error x, .error y =>
      if h : x = y then isTrue (by rw [h])
      else isFalse fun hc => h (by cases hc; rfl)
    | .ok x, .ok y =>
      if h : x = y then isTrue (by rw [h])
      else isFalse fun hc => h (by cases hc; rfl)
    | .error _, .ok _ => isFalse fun hc => Except.noConfusion hc
    | .ok _, .error _ => isFalse fun hc => Except.noConfusion hc

/-- The three-step memory resolution of the `processGpuData` record loop
(gpuData.js lines 106-131): direct extraction, else name inference, else
the fallback database.  The fallback lowercases `gpu.Model || ""`, which
throws a `TypeError` when a truthy `Model` is not a string; `.error`
models that throw. -/
def resolvedMemSize (gpu : RawGpu) : Except Unit ℚ :=
  if 0 < extractMemorySize gpu then .ok (extractMemorySize gpu)
  else if 0 < inferMemorySizeFromModelName gpu.Model then
    .ok (inferMemorySizeFromModelName gpu.Model)
  else
    match gpu.Model with
    | some (.str s) => .ok (getVramFromGpuModel (jsToLower s))
    | _ => .error ()

/-- The entry construction of the `processGpuData` record loop (gpuData.js
lines 138-171), after the memory size has been resolved and rounded: the
vendor defaults to the empty string, a falsy `Launch` becomes null, a
string model is cleaned and an empty cleaned name skips the record, while
a (degenerate) numeric model is kept as is. -/
def buildEntry (id : String) (gpu : RawGpu) (memSize : ℚ) : Option GpuEntry :=
  let vendor := gpu.Vendor.getD ""
  let launch := if gpu.Launch.getD "" = "" then none else gpu.Launch
  match gpu.Model with
  | some (.str s) =>
    let modelName := cleanModelName vendor s
    if modelName = "" then none
    else
      some
        { id := (id, .str modelName, memSize)
          name := .str modelName
          vendor := vendor
          vram := memSize
          launchDate := launch }
  | some (.num q) =>
    some
      { id := (id, .num q, memSize)
        name := .num q
        vendor := vendor
        vram := memSize
        launchDate := launch }
  | none => none

/-- One iteration of the `processGpuData` record loop (gpuData.js lines
99-172): skip a record without a truthy `Model`; resolve the memory size,
round it to one decimal when positive, and build the entry.  An `.error`
result models the JS `TypeError` of the fallback step, which the
surrounding try/catch converts into abandoning the whole catalog for the
default list. -/
def processRecord (id : String) (gpu : RawGpu) : Except Unit (Option GpuEntry) :=
  if ¬ jsTruthy gpu.Model then .ok none
  else
    match resolvedMemSize gpu with
    | .error _ => .error ()
    | .ok mem0 => .ok (buildEntry id gpu (if 0 < mem0 then round1dp mem0 else mem0))

/-- A raw record carrying only a `Memory Size` field (the vehicle for the
direct-extraction statements). -/
def rawMemOnly (v : JsVal) : RawGpu :=
  { Model := some (.str "Foo"), Vendor := none, Launch := none,
    fields := fun f => if f = "Memory Size" then some v else none }

/-- A raw record whose only memory information is a tiny numeric
`Memory Size` of 0.04. -/
def rawTinyNum : RawGpu := rawMemOnly (.num (1/25))

/-- A raw record without memory fields whose model name resolves through
the name-inference table. -/
def rawGtx1050 : RawGpu :=
  { Model := some (.str "GTX 1050"), Vendor := some "NVIDIA", Launch := none,
    fields := fun _ => none }

/-- Helper: `toFixed2` is monotone. -/
theorem toFixed2_mono {x y : ℚ} (h : x ≤ y) : toFixed2 x ≤ toFixed2 y := by
  unfold toFixed2
  have hf : (⌊x * 100 + 1/2⌋ : ℤ) ≤ ⌊y * 100 + 1/2⌋ :=
    Int.floor_mono (by nlinarith)
  have hq : ((⌊x * 100 + 1/2⌋ : ℤ) : ℚ) ≤ ((⌊y * 100 + 1/2⌋ : ℤ) : ℚ) := by
    exact_mod_cast hf
  linarith

/-- Helper: every quantization tag maps to at least a quarter byte per
parameter. -/
theorem getBytesPerParameter_ge_quarter (q : String) :
    1/4 ≤ getBytesPerParameter q := by
  unfold getBytesPerParameter
  split
  all_goals norm_num

/-- Helper: every quantization tag maps to at most four bytes per
parameter. -/
theorem getBytesPerParameter_le_four (q : String) :
    getBytesPerParameter q ≤ 4 := by
  unfold getBytesPerParameter
  split
  all_goals norm_num

/-- Helper: the layer estimate is positive. -/
theorem estimateLayers_pos (p : ℚ) : 0 < estimateLayers p := by
  unfold estimateLayers
  split_ifs <;> norm_num

/-- Helper: the hidden-dimension estimate is positive. -/
theorem estimateHiddenDim_pos (p : ℚ) : 0 < estimateHiddenDim p := by
  unfold estimateHiddenDim
  split_ifs <;> norm_num

/-- C1: for every model configuration with positive parameter count, context
length and batch size, the estimator output of `calculateHardware` satisfies
`vramMinGB ≤ vramRecGB` and `ramMinGB ≤ ramRecGB`, including after the
2-decimal rounding applied to the returned fields. -/
theorem claim_C1_rec_ge_min (modelParams : ℚ) (quantization : String)
    (contextLength batchSize : ℚ)
    (hp : 0 < modelParams) (hc : 0 < contextLength) (hb : 0 < batchSize) :
    (calculateHardware modelParams quantization contextLength batchSize).vramMinGB ≤
      (calculateHardware modelParams quantization contextLength batchSize).vramRecGB ∧
    (calculateHardware modelParams quantization contextLength batchSize).ramMinGB ≤
      (calculateHardware modelParams quantization contextLength batchSize).ramRecGB := by
  have hbpp : 0 < getBytesPerParameter quantization :=
    lt_of_lt_of_le (by norm_num) (getBytesPerParameter_ge_quarter quantization)
  have hms : 0 ≤ calculateModelSizeGB modelParams (getBytesPerParameter quantization) := by
    unfold calculateModelSizeGB
    positivity
  have hkv : 0 ≤ calculateKVCacheGB contextLength (estimateLayers modelParams)
      (estimateHiddenDim modelParams) (getBytesPerParameter quantization) batchSize := by
    unfold calculateKVCacheGB
    have hl := estimateLayers_pos modelParams
    have hh := estimateHiddenDim_pos modelParams
    positivity
  have hact : 0 ≤ calculateActivationGB
      (calculateModelSizeGB modelParams (getBytesPerParameter quantization)) := by
    unfold calculateActivationGB
    nlinarith
  unfold calculateHardware
  dsimp only
  constructor
  · exact toFixed2_mono (by nlinarith)
  · exact toFixed2_mono (by nlinarith)

/-- C1 witness: the inequalities hold at the 7B / FP16 / 4096-context /
batch-1 configuration. -/
theorem claim_C1_witness :
    (0:ℚ) < 7 ∧
    (calculateHardware 7 "FP16" 4096 1).vramMinGB ≤
      (calculateHardware 7 "FP16" 4096 1).vramRecGB ∧
    (calculateHardware 7 "FP16" 4096 1).ramMinGB ≤
      (calculateHardware 7 "FP16" 4096 1).ramRecGB :=
  ⟨by norm_num,
   claim_C1_rec_ge_min 7 "FP16" 4096 1 (by norm_num) (by norm_num) (by norm_num)⟩

/-- C2: the unified-memory estimator computes
`originalUnifiedMinGB = modelSizeGB + fixedOverheadGB + osOverheadGB` and
`originalUnifiedRecGB = modelSizeGB + kvCacheGB + activationGB +
fixedOverheadGB + osOverheadGB`, caps both at 512, records the two
exceeds-limit flags, returns `vramMinGB = ramMinGB` = capped minimum and
`vramRecGB = ramRecGB` = capped recommended (rounded to 2 decimals), and in
particular whenever `originalUnifiedRecGB > 512` the returned `vramRecGB`
is exactly 512 with `recExceedsLimit = true`. -/
theorem claim_C2_unified_caps (modelParams : ℚ) (quantization : String)
    (contextLength batchSize : ℚ) :
    (calculateHardwareUnified modelParams quantization contextLength batchSize).originalUnifiedMinGB
        = calculateModelSizeGB modelParams (getBytesPerParameter quantization) + 1.5 + 4 ∧
    (calculateHardwareUnified modelParams quantization contextLength batchSize).originalUnifiedRecGB
        = calculateModelSizeGB modelParams (getBytesPerParameter quantization)
          + calculateKVCacheGB contextLength (estimateLayers modelParams)
              (estimateHiddenDim modelParams) (getBytesPerParameter quantization) batchSize
          + calculateActivationGB (calculateModelSizeGB modelParams (getBytesPerParameter quantization))
          + 1.5 + 4 ∧
    (calculateHardwareUnified modelParams quantization contextLength batchSize).unifiedMemoryMax = 512 ∧
    (calculateHardwareUnified modelParams quantization contextLength batchSize).vramMinGB
        = toFixed2 (min (calculateHardwareUnified modelParams quantization contextLength batchSize).originalUnifiedMinGB 512) ∧
    (calculateHardwareUnified modelParams quantization contextLength batchSize).ramMinGB
        = (calculateHardwareUnified modelParams quantization contextLength batchSize).vramMinGB ∧
    (calculateHardwareUnified modelParams quantization contextLength batchSize).vramRecGB
        = toFixed2 (min (calculateHardwareUnified modelParams quantization contextLength batchSize).originalUnifiedRecGB 512) ∧
    (calculateHardwareUnified modelParams quantization contextLength batchSize).ramRecGB
        = (calculateHardwareUnified modelParams quantization contextLength batchSize).vramRecGB ∧
    ((calculateHardwareUnified modelParams quantization contextLength batchSize).minExceedsLimit = true
        ↔ 512 < (calculateHardwareUnified modelParams quantization contextLength batchSize).originalUnifiedMinGB) ∧
    ((calculateHardwareUnified modelParams quantization contextLength batchSize).recExceedsLimit = true
        ↔ 512 < (calculateHardwareUnified modelParams quantization contextLength batchSize).originalUnifiedRecGB) ∧
    (512 < (calculateHardwareUnified modelParams quantization contextLength batchSize).originalUnifiedRecGB →
      (calculateHardwareUnified modelParams quantization contextLength batchSize).vramRecGB = 512 ∧
      (calculateHardwareUnified modelParams quantization contextLength batchSize).recExceedsLimit = true) := by
  refine ⟨rfl, rfl, rfl, rfl, rfl, rfl, rfl,
    ⟨fun h => of_decide_eq_true h, fun h => decide_eq_true h⟩,
    ⟨fun h => of_decide_eq_true h, fun h => decide_eq_true h⟩, ?_⟩
  intro hgt
  refine ⟨?_, decide_eq_true hgt⟩
  show toFixed2 (min (calculateHardwareUnified modelParams quantization
    contextLength batchSize).originalUnifiedRecGB 512) = 512
  rw [min_eq_right (le_of_lt hgt)]
  unfold toFixed2
  have hfl : (⌊(512:ℚ) * 100 + 1/2⌋ : ℤ) = 51200 := by
    apply Int.floor_eq_iff.mpr
    constructor <;> norm_num
  rw [hfl]
  norm_num

/-- C5: with positive layer count, hidden dimension, batch size and
bytes-per-parameter, the KV-cache size is strictly increasing in the
context length. -/
theorem claim_C5_kv_monotone (layers hiddenDim batchSize bytesPerParam c1 c2 : ℚ)
    (hl : 0 < layers) (hh : 0 < hiddenDim) (hb : 0 < batchSize)
    (hbpp : 0 < bytesPerParam) (hc : c1 < c2) :
    calculateKVCacheGB c1 layers hiddenDim bytesPerParam batchSize <
      calculateKVCacheGB c2 layers hiddenDim bytesPerParam batchSize := by
  unfold calculateKVCacheGB
  have hden : (0:ℚ) < 1024 * 1024 * 1024 := by norm_num
  rw [div_lt_div_iff_of_pos_right hden]
  nlinarith [mul_pos (mul_pos hl hh) (mul_pos hb hbpp)]

/-- C5 witness: doubling the context from 2048 to 4096 strictly increases
the KV-cache size at 32 layers, 4096 hidden dimension, batch 1, FP16. -/
theorem claim_C5_witness :
    (0:ℚ) < 32 ∧
    calculateKVCacheGB 2048 32 4096 2 1 < calculateKVCacheGB 4096 32 4096 2 1 :=
  ⟨by norm_num,
   claim_C5_kv_monotone 32 4096 1 2 2048 4096 (by norm_num) (by norm_num)
     (by norm_num) (by norm_num) (by norm_num)⟩

/-- C6: the quantization lookup is total, always lands in the interval
`[1/4, 4]` bytes per parameter, and maps every string outside the known
tag enumeration to exactly 2 (the FP16-equivalent default). -/
theorem claim_C6_bpp_total (q : String) :
    (1/4 ≤ getBytesPerParameter q ∧ getBytesPerParameter q ≤ 4) ∧
    (q ∉ knownQuantizationTags → getBytesPerParameter q = 2) := by
  refine ⟨⟨getBytesPerParameter_ge_quarter q, getBytesPerParameter_le_four q⟩, ?_⟩
  intro hq
  unfold getBytesPerParameter
  split
  all_goals first
    | rfl
    | (exfalso; exact hq (by decide))

/-- C6 witness: the tag "Q4_K_M" is outside the enumeration and maps to 2,
inside the 1/4–4 range. -/
theorem claim_C6_witness :
    ("Q4_K_M" ∉ knownQuantizationTags) ∧ getBytesPerParameter "Q4_K_M" = 2 :=
  ⟨by decide, (claim_C6_bpp_total "Q4_K_M").2 (by decide)⟩


/-- Helper: membership in an insertion step. -/
theorem mem_insertLe {α : Type} {le : α → α → Bool} {a x : α} {l : List α} :
    x ∈ insertLe le a l ↔ x = a ∨ x ∈ l := by
  induction l with
  | nil => simp [insertLe]
  | cons b bs ih =>
    unfold insertLe
    split
    · simp [List.mem_cons]
    · simp only [List.mem_cons, ih]
      tauto

/-- Helper: `sortJs` preserves membership. -/
theorem mem_sortJs {α : Type} {le : α → α → Bool} {x : α} {l : List α} :
    x ∈ sortJs le l ↔ x ∈ l := by
  induction l with
  | nil => simp [sortJs]
  | cons b bs ih =>
    unfold sortJs
    rw [mem_insertLe]
    simp [ih]

/-- Helper: an insertion step grows the length by one. -/
theorem length_insertLe {α : Type} (le : α → α → Bool) (a : α) (l : List α) :
    (insertLe le a l).length = l.length + 1 := by
  induction l with
  | nil => simp [insertLe]
  | cons b bs ih =>
    unfold insertLe
    split
    · simp
    · simp [ih]

/-- Helper: `sortJs` preserves length. -/
theorem length_sortJs {α : Type} (le : α → α → Bool) (l : List α) :
    (sortJs le l).length = l.length := by
  induction l with
  | nil => rfl
  | cons b bs ih =>
    unfold sortJs
    rw [length_insertLe, ih, List.length_cons]

/-- Helper: `sortJs` sends nonempty lists to nonempty lists. -/
theorem sortJs_ne_nil {α : Type} {le : α → α → Bool} {l : List α} (h : l ≠ []) :
    sortJs le l ≠ [] := by
  intro hc
  apply h
  have hlen := length_sortJs le l
  rw [hc] at hlen
  exact List.length_eq_zero.mp hlen.symm

/-- Helper: the head of a list is a member. -/
theorem mem_of_head? {α : Type} {l : List α} {a : α} (h : l.head? = some a) : a ∈ l := by
  cases l <;> simp_all

/-- Helper: a nonempty list has a head. -/
theorem head?_some_of_ne_nil {α : Type} {l : List α} (h : l ≠ []) :
    ∃ a, l.head? = some a ∧ a ∈ l := by
  cases l with
  | nil => exact absurd rfl h
  | cons b t => exact ⟨b, rfl, List.mem_cons_self b t⟩

/-- Helper: buying `ceil (r / v)` devices of capacity `v > 0` reaches `r`. -/
theorem le_mul_jsCeil_div {r v : ℚ} (hv : 0 < v) :
    r ≤ v * ((jsCeil (r / v) : ℤ) : ℚ) := by
  unfold jsCeil
  have h1 : r / v ≤ ((⌈r / v⌉ : ℤ) : ℚ) := Int.le_ceil (r / v)
  calc r = v * (r / v) := by field_simp
    _ ≤ v * ((⌈r / v⌉ : ℤ) : ℚ) := mul_le_mul_of_nonneg_left h1 (le_of_lt hv)

/-- Helper: a multi-device configuration either reaches the recommended
figure or was capped at 16 devices. -/
theorem multiGpuSolution_le_or_capped {rec : ℚ} {g : Gpu} (hv : 0 < g.vram) :
    rec ≤ (multiGpuSolution rec g).totalVram ∨ (multiGpuSolution rec g).count = 16 := by
  by_cases hcap : jsCeil (rec / g.vram) ≤ 16
  · left
    show rec ≤ g.vram * ((min (jsCeil (rec / g.vram)) 16 : ℤ) : ℚ)
    rw [min_eq_left hcap]
    exact le_mul_jsCeil_div hv
  · right
    show min (jsCeil (rec / g.vram)) 16 = 16
    exact min_eq_right (le_of_not_le hcap)

/-- Helper: every configuration the discrete engine builds over a catalog
of positive-VRAM devices reaches the minimum figure unless its device
count was capped at 16. -/
theorem totalVram_of_mem_allGpuSolutions {requiredVramMin requiredVramRec : ℚ}
    {sortedGpus : List Gpu} {s : GpuSolution}
    (hmr : requiredVramMin ≤ requiredVramRec)
    (hpos : ∀ g ∈ sortedGpus, 0 < g.vram)
    (hs : s ∈ allGpuSolutions requiredVramMin requiredVramRec sortedGpus) :
    requiredVramMin ≤ s.totalVram ∨ s.count = 16 := by
  unfold allGpuSolutions at hs
  rcases List.mem_append.mp hs with hs | hs
  · rcases List.mem_append.mp hs with hs | hs
    · -- single-device solutions: one device already meets the recommended figure
      unfold singleGpuSolutions at hs
      obtain ⟨g, hg, rfl⟩ := List.mem_map.mp hs
      left
      exact le_trans hmr (of_decide_eq_true (List.mem_filter.mp hg).2)
    · -- the best device multiplied up
      cases hhead : sortedGpus.head? with
      | none =>
        have hm : multiGpuSolutions requiredVramRec sortedGpus = [] := by
          unfold multiGpuSolutions
          rw [hhead]
        rw [hm] at hs
        simp at hs
      | some bestGpu =>
        have hm : multiGpuSolutions requiredVramRec sortedGpus =
            if 0 < bestGpu.vram ∧ bestGpu.vram < requiredVramRec then
              [multiGpuSolution requiredVramRec bestGpu]
            else [] := by
          unfold multiGpuSolutions
          rw [hhead]
        rw [hm] at hs
        by_cases hcond : 0 < bestGpu.vram ∧ bestGpu.vram < requiredVramRec
        · rw [if_pos hcond] at hs
          rw [List.mem_singleton] at hs
          subst hs
          rcases multiGpuSolution_le_or_capped hcond.1 with h | h
          · exact Or.inl (le_trans hmr h)
          · exact Or.inr h
        · rw [if_neg hcond] at hs
          simp at hs
  · -- lower-tier devices multiplied up
    unfold minimumGpuSolutions at hs
    obtain ⟨g, hg, rfl⟩ := List.mem_map.mp hs
    have hgv : 0 < g.vram := hpos g (List.mem_of_mem_drop (List.mem_filter.mp hg).1)
    rcases multiGpuSolution_le_or_capped hgv with h | h
    · exact Or.inl (le_trans hmr h)
    · exact Or.inr h

/-- Helper: over a nonempty catalog of positive-VRAM devices the discrete
engine always builds at least one candidate configuration (the fallback
branch of the source is dead code). -/
theorem allGpuSolutions_ne_nil {requiredVramMin requiredVramRec : ℚ}
    {sortedGpus : List Gpu} (hne : sortedGpus ≠ [])
    (hpos : ∀ g ∈ sortedGpus, 0 < g.vram) :
    allGpuSolutions requiredVramMin requiredVramRec sortedGpus ≠ [] := by
  obtain ⟨b, t, rfl⟩ := List.exists_cons_of_ne_nil hne
  intro hc
  unfold allGpuSolutions at hc
  rw [List.append_eq_nil, List.append_eq_nil] at hc
  obtain ⟨⟨hsingle, hmulti⟩, -⟩ := hc
  by_cases hrec : requiredVramRec ≤ b.vram
  · -- the head would appear among the single-device solutions
    unfold singleGpuSolutions at hsingle
    rw [List.map_eq_nil_iff, List.filter_eq_nil_iff] at hsingle
    exact hsingle b (List.mem_cons_self b t) (decide_eq_true hrec)
  · -- the head would appear as the multiplied best device
    have hcond : 0 < b.vram ∧ b.vram < requiredVramRec :=
      ⟨hpos b (List.mem_cons_self b t), lt_of_not_le hrec⟩
    have hm : multiGpuSolutions requiredVramRec (b :: t) =
        if 0 < b.vram ∧ b.vram < requiredVramRec then
          [multiGpuSolution requiredVramRec b]
        else [] := rfl
    rw [hm, if_pos hcond] at hmulti
    simp at hmulti

/-- Helper: every unified-path candidate sits on a device that passed the
minimum-memory filter. -/
theorem totalVram_of_mem_unifiedAllDevices {requiredMemoryMin requiredMemoryRec : ℚ}
    {unifiedDevices : List Gpu} {s : GpuSolution}
    (hmin : ∀ g ∈ unifiedDevices, requiredMemoryMin ≤ g.vram)
    (hs : s ∈ unifiedAllDevices requiredMemoryMin requiredMemoryRec unifiedDevices) :
    requiredMemoryMin ≤ s.totalVram := by
  unfold unifiedAllDevices at hs
  rcases List.mem_append.mp hs with hs | hs
  · unfold unifiedRecommendedDevices at hs
    obtain ⟨g, hg, rfl⟩ := List.mem_map.mp hs
    exact hmin g (List.mem_filter.mp hg).1
  · unfold unifiedMinimumDevices at hs
    obtain ⟨g, hg, rfl⟩ := List.mem_map.mp hs
    exact hmin g (List.mem_filter.mp hg).1

/-- Helper: the three code paths of the unified recommender. -/
theorem recommendUnifiedMemorySetup_cases (mr : MemoryRequirements) (gpus : List Gpu) :
    recommendUnifiedMemorySetup mr gpus =
      { optimal := none, performance := none, budget := none, isUnifiedMemory := true } ∨
    recommendUnifiedMemorySetup mr gpus =
      { optimal := (sortJs unifiedOptimalLe (unifiedAllDevices mr.vramMinGB mr.vramRecGB
          (gpus.filter fun gpu => gpu.isUnified && decide (mr.vramMinGB ≤ gpu.vram)))).head?
        performance := (sortJs perfDescLe (unifiedAllDevices mr.vramMinGB mr.vramRecGB
          (gpus.filter fun gpu => gpu.isUnified && decide (mr.vramMinGB ≤ gpu.vram)))).head?
        budget := (sortJs unifiedBudgetLe (unifiedAllDevices mr.vramMinGB mr.vramRecGB
          (gpus.filter fun gpu => gpu.isUnified && decide (mr.vramMinGB ≤ gpu.vram)))).head?
        isUnifiedMemory := true } := by
  simp only [recommendUnifiedMemorySetup]
  split_ifs with h1 h2
  · left; rfl
  · left; rfl
  · right; rfl

/-- Helper: the three code paths of the discrete recommender. -/
theorem recommendDiscreteSetup_cases (mr : MemoryRequirements) (gpus : List Gpu) :
    (gpus.filter (fun gpu => !gpu.isUnified && decide (0 < gpu.vram)) = [] ∧
      recommendDiscreteSetup mr gpus =
        { optimal := none, performance := none, budget := none, isUnifiedMemory := false }) ∨
    (gpus.filter (fun gpu => !gpu.isUnified && decide (0 < gpu.vram)) ≠ [] ∧
      allGpuSolutions mr.vramMinGB mr.vramRecGB (sortJs vramDescLe
        (gpus.filter (fun gpu => !gpu.isUnified && decide (0 < gpu.vram)))) = []) ∨
    (gpus.filter (fun gpu => !gpu.isUnified && decide (0 < gpu.vram)) ≠ [] ∧
      allGpuSolutions mr.vramMinGB mr.vramRecGB (sortJs vramDescLe
        (gpus.filter (fun gpu => !gpu.isUnified && decide (0 < gpu.vram)))) ≠ [] ∧
      recommendDiscreteSetup mr gpus =
        { optimal := (sortJs optimalDescLe (allGpuSolutions mr.vramMinGB mr.vramRecGB
            (sortJs vramDescLe (gpus.filter (fun gpu => !gpu.isUnified && decide (0 < gpu.vram)))))).head?
          performance := (sortJs perfDescLe (allGpuSolutions mr.vramMinGB mr.vramRecGB
            (sortJs vramDescLe (gpus.filter (fun gpu => !gpu.isUnified && decide (0 < gpu.vram)))))).head?
          budget := (sortJs (budgetDescLe mr.vramRecGB) (allGpuSolutions mr.vramMinGB mr.vramRecGB
            (sortJs vramDescLe (gpus.filter (fun gpu => !gpu.isUnified && decide (0 < gpu.vram)))))).head?
          isUnifiedMemory := false }) := by
  by_cases h1 : (gpus.filter (fun gpu => !gpu.isUnified && decide (0 < gpu.vram))).length = 0
  · left
    refine ⟨List.length_eq_zero.mp h1, ?_⟩
    simp only [recommendDiscreteSetup]
    rw [if_pos h1]
  · right
    have hne : gpus.filter (fun gpu => !gpu.isUnified && decide (0 < gpu.vram)) ≠ [] :=
      fun hc => h1 (by rw [hc]; rfl)
    by_cases h2 : (allGpuSolutions mr.vramMinGB mr.vramRecGB (sortJs vramDescLe
        (gpus.filter (fun gpu => !gpu.isUnified && decide (0 < gpu.vram))))).length = 0
    · left
      exact ⟨hne, List.length_eq_zero.mp h2⟩
    · right
      refine ⟨hne, fun hc => h2 (by rw [hc]; rfl), ?_⟩
      simp only [recommendDiscreteSetup]
      rw [if_neg h1, if_neg h2]

/-- Helper: the right conjunct of a true Bool conjunction. -/
theorem bool_and_right {a b : Bool} (h : (a && b) = true) : b = true := by
  cases a <;> cases b <;> simp_all

/-- Helper: devices surviving the discrete compatibility filter have
positive VRAM. -/
theorem pos_of_mem_compatible {gpus : List Gpu} {g : Gpu}
    (hg : g ∈ sortJs vramDescLe (gpus.filter fun gpu => !gpu.isUnified && decide (0 < gpu.vram))) :
    0 < g.vram :=
  of_decide_eq_true (bool_and_right (List.mem_filter.mp (mem_sortJs.mp hg)).2)

/-- C3 amended: for a requirement with `vramMinGB ≤ vramRecGB`, every
non-none recommendation (optimal, performance or budget) has
`totalVram ≥ vramMinGB`, except possibly when its device count hit the
16-device cap (in which case `count = 16`). -/
theorem claim_C3_amended (mr : MemoryRequirements) (gpus : List Gpu) (iu : Bool)
    (s : GpuSolution) (hmr : mr.vramMinGB ≤ mr.vramRecGB)
    (hs : (recommendOptimalGpuSetup (some mr) (some gpus) iu).optimal = some s ∨
          (recommendOptimalGpuSetup (some mr) (some gpus) iu).performance = some s ∨
          (recommendOptimalGpuSetup (some mr) (some gpus) iu).budget = some s) :
    mr.vramMinGB ≤ s.totalVram ∨ s.count = 16 := by
  by_cases hlen : gpus.length = 0
  · have hR : recommendOptimalGpuSetup (some mr) (some gpus) iu =
        { optimal := none, performance := none, budget := none, isUnifiedMemory := iu } := by
      simp only [recommendOptimalGpuSetup]
      rw [if_pos hlen]
    rw [hR] at hs
    simp at hs
  · cases iu with
    | true =>
      have hR : recommendOptimalGpuSetup (some mr) (some gpus) true =
          recommendUnifiedMemorySetup mr gpus := by
        simp [recommendOptimalGpuSetup, hlen]
      rw [hR] at hs
      rcases recommendUnifiedMemorySetup_cases mr gpus with hEq | hEq
      · rw [hEq] at hs
        simp at hs
      · rw [hEq] at hs
        dsimp only at hs
        have hmin : ∀ g ∈ gpus.filter (fun gpu => gpu.isUnified && decide (mr.vramMinGB ≤ gpu.vram)),
            mr.vramMinGB ≤ g.vram := fun g hg =>
          of_decide_eq_true (bool_and_right (List.mem_filter.mp hg).2)
        left
        rcases hs with hs | hs | hs <;>
          exact totalVram_of_mem_unifiedAllDevices hmin (mem_sortJs.mp (mem_of_head? hs))
    | false =>
      have hR : recommendOptimalGpuSetup (some mr) (some gpus) false =
          recommendDiscreteSetup mr gpus := by
        simp [recommendOptimalGpuSetup, hlen]
      rw [hR] at hs
      rcases recommendDiscreteSetup_cases mr gpus with ⟨hfil, hEq⟩ | ⟨hne, hnil⟩ | ⟨hne, hnenil, hEq⟩
      · rw [hEq] at hs
        simp at hs
      · exact absurd hnil (allGpuSolutions_ne_nil (sortJs_ne_nil hne)
          (fun g hg => pos_of_mem_compatible hg))
      · rw [hEq] at hs
        dsimp only at hs
        have hpos : ∀ g ∈ sortJs vramDescLe
            (gpus.filter fun gpu => !gpu.isUnified && decide (0 < gpu.vram)), 0 < g.vram :=
          fun g hg => pos_of_mem_compatible hg
        rcases hs with hs | hs | hs <;>
          exact totalVram_of_mem_allGpuSolutions hmr hpos (mem_sortJs.mp (mem_of_head? hs))

/-- C4 amended: in discrete mode the three recommendation slots are all
none exactly when the catalog holds no non-unified device with positive
VRAM; in particular a catalog with a compatible device always yields a
non-none recommendation, even when no device reaches `vramMinGB` within
the 16-device cap. -/
theorem claim_C4_amended (mr : MemoryRequirements) (gpus : List Gpu) :
    gpus.filter (fun gpu => !gpu.isUnified && decide (0 < gpu.vram)) = [] ↔
      ((recommendOptimalGpuSetup (some mr) (some gpus) false).optimal = none ∧
       (recommendOptimalGpuSetup (some mr) (some gpus) false).performance = none ∧
       (recommendOptimalGpuSetup (some mr) (some gpus) false).budget = none) := by
  by_cases hlen : gpus.length = 0
  · have hg : gpus = [] := List.length_eq_zero.mp hlen
    subst hg
    simp [recommendOptimalGpuSetup]
  · have hR : recommendOptimalGpuSetup (some mr) (some gpus) false =
        recommendDiscreteSetup mr gpus := by
      simp [recommendOptimalGpuSetup, hlen]
    rw [hR]
    constructor
    · intro hfil
      have h1 : (gpus.filter fun gpu => !gpu.isUnified && decide (0 < gpu.vram)).length = 0 := by
        rw [hfil]
        rfl
      have hEq : recommendDiscreteSetup mr gpus =
          { optimal := none, performance := none, budget := none, isUnifiedMemory := false } := by
        simp only [recommendDiscreteSetup]
        rw [if_pos h1]
      rw [hEq]
      exact ⟨rfl, rfl, rfl⟩
    · intro hnone
      by_contra hfil
      rcases recommendDiscreteSetup_cases mr gpus with ⟨hfil2, -⟩ | ⟨hne, hnil⟩ | ⟨hne, hnenil, hEq⟩
      · exact hfil hfil2
      · exact absurd hnil (allGpuSolutions_ne_nil (sortJs_ne_nil hne)
          (fun g hg => pos_of_mem_compatible hg))
      · rw [hEq] at hnone
        dsimp only at hnone
        obtain ⟨a, ha, -⟩ := head?_some_of_ne_nil (@sortJs_ne_nil _ optimalDescLe _ hnenil)
        rw [ha] at hnone
        exact Option.some_ne_none a hnone.1

/-- Helper: the multi-device configuration at recommended figure 30 over an
8 GB device: 4 devices, 32 GB total, meets the recommendation. -/
theorem multiGpuSolution_30_8 {g : Gpu} (hv : g.vram = 8) :
    (multiGpuSolution 30 g).count = 4 ∧ (multiGpuSolution 30 g).totalVram = 32 ∧
      (multiGpuSolution 30 g).meetsRecommended = true := by
  have hceil : jsCeil ((30:ℚ) / 8) = 4 := by
    unfold jsCeil
    rw [Int.ceil_eq_iff]
    constructor <;> norm_num
  unfold multiGpuSolution
  rw [hv]
  dsimp only
  rw [hceil]
  have hmin4 : min (4:ℤ) 16 = 4 := by norm_num
  rw [hmin4]
  refine ⟨rfl, by norm_num, ?_⟩
  apply decide_eq_true
  norm_num

/-- C7: over any nonempty catalog consisting only of non-unified 8 GB
devices, a requirement with `vramRecGB = 30` and `vramMinGB ≤ 8` makes the
optimal slot a recommendation with `count = 4`, `totalVram = 32` and
`meetsRecommended = true`. -/
theorem claim_C7_four_8gb (mr : MemoryRequirements) (gpus : List Gpu)
    (hne : gpus ≠ [])
    (h8 : ∀ g ∈ gpus, g.vram = 8 ∧ g.isUnified = false)
    (hrec : mr.vramRecGB = 30) (_hmin : mr.vramMinGB ≤ 8) :
    ∃ s, (recommendOptimalGpuSetup (some mr) (some gpus) false).optimal = some s ∧
      s.count = 4 ∧ s.totalVram = 32 ∧ s.meetsRecommended = true := by
  have hlen : ¬ gpus.length = 0 := fun h => hne (List.length_eq_zero.mp h)
  have hR : recommendOptimalGpuSetup (some mr) (some gpus) false =
      recommendDiscreteSetup mr gpus := by
    simp [recommendOptimalGpuSetup, hlen]
  rw [hR]
  have hfil : gpus.filter (fun gpu => !gpu.isUnified && decide (0 < gpu.vram)) = gpus := by
    apply List.filter_eq_self.mpr
    intro g hg
    rcases h8 g hg with ⟨hv, hu⟩
    rw [hu, hv]
    simp only [Bool.not_false, Bool.true_and]
    apply decide_eq_true
    norm_num
  have hprop : ∀ s ∈ allGpuSolutions mr.vramMinGB mr.vramRecGB (sortJs vramDescLe gpus),
      s.count = 4 ∧ s.totalVram = 32 ∧ s.meetsRecommended = true := by
    intro s hs
    unfold allGpuSolutions at hs
    rcases List.mem_append.mp hs with hs | hs
    · rcases List.mem_append.mp hs with hs | hs
      · -- no 8 GB device meets the recommended 30 GB alone
        unfold singleGpuSolutions at hs
        obtain ⟨g, hg, rfl⟩ := List.mem_map.mp hs
        have h30 : mr.vramRecGB ≤ g.vram := of_decide_eq_true (List.mem_filter.mp hg).2
        have hv := (h8 g (mem_sortJs.mp (List.mem_filter.mp hg).1)).1
        rw [hrec, hv] at h30
        norm_num at h30
      · cases hhead : (sortJs vramDescLe gpus).head? with
        | none =>
          have hm : multiGpuSolutions mr.vramRecGB (sortJs vramDescLe gpus) = [] := by
            unfold multiGpuSolutions
            rw [hhead]
          rw [hm] at hs
          simp at hs
        | some bestGpu =>
          have hm : multiGpuSolutions mr.vramRecGB (sortJs vramDescLe gpus) =
              if 0 < bestGpu.vram ∧ bestGpu.vram < mr.vramRecGB then
                [multiGpuSolution mr.vramRecGB bestGpu]
              else [] := by
            unfold multiGpuSolutions
            rw [hhead]
          rw [hm] at hs
          have hv := (h8 bestGpu (mem_sortJs.mp (mem_of_head? hhead))).1
          by_cases hcond : 0 < bestGpu.vram ∧ bestGpu.vram < mr.vramRecGB
          · rw [if_pos hcond] at hs
            rw [List.mem_singleton] at hs
            subst hs
            rw [hrec]
            exact multiGpuSolution_30_8 hv
          · exfalso
            apply hcond
            rw [hv, hrec]
            norm_num
    · unfold minimumGpuSolutions at hs
      obtain ⟨g, hg, rfl⟩ := List.mem_map.mp hs
      have hv := (h8 g (mem_sortJs.mp
        (List.mem_of_mem_drop (List.mem_filter.mp hg).1))).1
      rw [hrec]
      exact multiGpuSolution_30_8 hv
  have hsortne : sortJs vramDescLe gpus ≠ [] := sortJs_ne_nil hne
  have hposall : ∀ g ∈ sortJs vramDescLe gpus, 0 < g.vram := by
    intro g hg
    rw [(h8 g (mem_sortJs.mp hg)).1]
    norm_num
  have hallne : allGpuSolutions mr.vramMinGB mr.vramRecGB (sortJs vramDescLe gpus) ≠ [] :=
    allGpuSolutions_ne_nil hsortne hposall
  rcases recommendDiscreteSetup_cases mr gpus with ⟨hfil2, -⟩ | ⟨-, hnil⟩ | ⟨-, -, hEq⟩
  · rw [hfil] at hfil2
    exact absurd hfil2 hne
  · rw [hfil] at hnil
    exact absurd hnil hallne
  · rw [hEq]
    dsimp only
    rw [hfil]
    obtain ⟨s, hhead, hsmem⟩ := head?_some_of_ne_nil
      (@sortJs_ne_nil _ optimalDescLe _ hallne)
    exact ⟨s, hhead, hprop s (mem_sortJs.mp hsmem)⟩

/-- C10: a missing memory requirement, or a missing or empty catalog, makes
the recommendation engine return the all-none result carrying the given
`isUnifiedMemory` flag. -/
theorem claim_C10_invalid_inputs (iu : Bool) (mr : Option MemoryRequirements)
    (gpus : Option (List Gpu))
    (h : mr = none ∨ gpus = none ∨ gpus = some []) :
    recommendOptimalGpuSetup mr gpus iu =
      { optimal := none, performance := none, budget := none, isUnifiedMemory := iu } := by
  rcases h with h | h | h
  · subst h
    cases gpus <;> rfl
  · subst h
    cases mr <;> rfl
  · subst h
    cases mr <;> rfl

/-- C10 witness: a concrete invalid call (empty catalog) produces the
all-none result. -/
theorem claim_C10_witness :
    recommendOptimalGpuSetup (some { vramMinGB := 1, vramRecGB := 2 }) (some []) true =
      { optimal := none, performance := none, budget := none, isUnifiedMemory := true } :=
  claim_C10_invalid_inputs true (some { vramMinGB := 1, vramRecGB := 2 }) (some [])
    (Or.inr (Or.inr rfl))

/-- Helper: a first-match lookup only returns table values, so a bound on
the table bounds the result. -/
theorem firstIncludesMatch_ge {c : ℚ} {m : String} {v : ℚ} :
    ∀ {table : List (String × ℚ)}, (∀ p ∈ table, c ≤ p.2) →
      firstIncludesMatch m table = some v → c ≤ v := by
  intro table
  induction table with
  | nil =>
    intro _ h
    simp [firstIncludesMatch] at h
  | cons p rest ih =>
    intro ht h
    obtain ⟨pat, val⟩ := p
    unfold firstIncludesMatch at h
    by_cases hc : strIncludes m pat = true
    · rw [if_pos hc] at h
      simp only [Option.some.injEq] at h
      subst h
      exact ht (pat, val) (List.mem_cons_self _ _)
    · rw [if_neg hc] at h
      exact ih (fun q hq => ht q (List.mem_cons_of_mem _ hq)) h

/-- Helper: a two-level first-match lookup only returns inner table values
or row defaults, so a bound on all of them bounds the result. -/
theorem firstIncludesNested_ge {c : ℚ} {m : String} {v : ℚ} :
    ∀ {table : List (String × List (String × ℚ) × ℚ)},
      (∀ p ∈ table, (∀ q ∈ p.2.1, c ≤ q.2) ∧ c ≤ p.2.2) →
      firstIncludesNested m table = some v → c ≤ v := by
  intro table
  induction table with
  | nil =>
    intro _ h
    simp [firstIncludesNested] at h
  | cons p rest ih =>
    intro ht h
    obtain ⟨pat, tbl, dflt⟩ := p
    unfold firstIncludesNested at h
    by_cases hc : strIncludes m pat = true
    · rw [if_pos hc] at h
      simp only [Option.some.injEq] at h
      subst h
      obtain ⟨htbl, hdflt⟩ := ht (pat, tbl, dflt) (List.mem_cons_self _ _)
      cases hf : firstIncludesMatch m tbl with
      | none => exact hdflt
      | some w => exact firstIncludesMatch_ge htbl hf
    · rw [if_neg hc] at h
      exact ih (fun q hq => ht q (List.mem_cons_of_mem _ hq)) h

/-- Helper: the Tesla inference block answers at least 1 GB. -/
theorem inferTesla_ge_one {m : String} {v : ℚ} (h : inferTesla m = some v) : 1 ≤ v := by
  unfold inferTesla at h
  split_ifs at h <;>
    first
      | exact Option.noConfusion h
      | (injection h with h2; rw [← h2]; norm_num)

section RatEval

attribute [local semireducible] Rat.add Rat.mul Rat.sub Rat.inv Rat.ofScientific

/-- C2 witness: a 500-billion-parameter FP16 model overflows the 512 GB
unified-memory cap, and the returned recommended figure is capped at
exactly 512 with the flag set. -/
theorem claim_C2_witness :
    512 < (calculateHardwareUnified 500 "FP16" 4096 1).originalUnifiedRecGB ∧
    (calculateHardwareUnified 500 "FP16" 4096 1).vramRecGB = 512 ∧
    (calculateHardwareUnified 500 "FP16" 4096 1).recExceedsLimit = true := by
  have hgt : 512 < (calculateHardwareUnified 500 "FP16" 4096 1).originalUnifiedRecGB := by
    decide
  exact ⟨hgt, (claim_C2_unified_caps 500 "FP16" 4096 1).2.2.2.2.2.2.2.2.2 hgt⟩

/-- C3 counterexample: a requirement of 70 GB minimum / 80 GB recommended
over a catalog holding a single 4 GB device yields a non-none optimal
recommendation whose total VRAM is 64 GB, below the 70 GB minimum (the
16-device cap truncates the needed count of 20). -/
theorem claim_C3_counterexample :
    (recommendOptimalGpuSetup (some { vramMinGB := 70, vramRecGB := 80 })
        (some [{ name := "GPU", vendor := "", vram := 4, isUnified := false }]) false).optimal.map
      GpuSolution.totalVram = some 64 ∧ (64:ℚ) < 70 := by
  constructor
  · decide
  · norm_num

/-- C3 witness: the amended statement holds at the counterexample input,
through the capped-count disjunct. -/
theorem claim_C3_witness :
    ((recommendOptimalGpuSetup (some { vramMinGB := 70, vramRecGB := 80 })
        (some [{ name := "GPU", vendor := "", vram := 4, isUnified := false }]) false).optimal =
      some { gpu := { name := "GPU", vendor := "", vram := 4, isUnified := false },
             count := 16, totalVram := 64, perfBase := 40, perfCount := 16,
             efficiency := 0, meetsRecommended := false }) ∧
    (((70:ℚ) ≤ 64) ∨ (16:ℤ) = 16) := by
  have hopt : (recommendOptimalGpuSetup (some { vramMinGB := 70, vramRecGB := 80 })
      (some [{ name := "GPU", vendor := "", vram := 4, isUnified := false }]) false).optimal =
      some { gpu := { name := "GPU", vendor := "", vram := 4, isUnified := false },
             count := 16, totalVram := 64, perfBase := 40, perfCount := 16,
             efficiency := 0, meetsRecommended := false } := by decide
  exact ⟨hopt,
    claim_C3_amended { vramMinGB := 70, vramRecGB := 80 }
      [{ name := "GPU", vendor := "", vram := 4, isUnified := false }] false _
      (by norm_num) (Or.inl hopt)⟩

/-- C4 counterexample: a single 3 GB device cannot reach the 50 GB minimum
even with 16 devices (48 GB), yet the optimal slot is not none. -/
theorem claim_C4_counterexample :
    (3:ℚ) * 16 < 50 ∧
    (recommendOptimalGpuSetup (some { vramMinGB := 50, vramRecGB := 60 })
        (some [{ name := "Card", vendor := "", vram := 3, isUnified := false }]) false).optimal ≠
      none := by
  constructor
  · norm_num
  · decide

/-- C7 witness: a concrete two-device 8 GB catalog with requirement
30 GB recommended / 8 GB minimum. -/
theorem claim_C7_witness :
    ∃ s, (recommendOptimalGpuSetup (some { vramMinGB := 8, vramRecGB := 30 })
        (some [{ name := "RTX 3070", vendor := "NVIDIA", vram := 8, isUnified := false },
               { name := "RTX 2080", vendor := "NVIDIA", vram := 8, isUnified := false }])
        false).optimal = some s ∧
      s.count = 4 ∧ s.totalVram = 32 ∧ s.meetsRecommended = true :=
  claim_C7_four_8gb { vramMinGB := 8, vramRecGB := 30 }
    [{ name := "RTX 3070", vendor := "NVIDIA", vram := 8, isUnified := false },
     { name := "RTX 2080", vendor := "NVIDIA", vram := 8, isUnified := false }]
    (by decide) (by decide) rfl (by norm_num)

/-- Helper: `takeWhile` runs through a prefix on which the predicate
holds. -/
theorem takeWhile_append_all {α : Type} (p : α → Bool) {l : List α} (r : List α)
    (hl : ∀ c ∈ l, p c = true) : (l ++ r).takeWhile p = l ++ r.takeWhile p := by
  induction l with
  | nil => simp
  | cons a as ih =>
    simp [List.takeWhile_cons, hl a (List.mem_cons_self a as),
      ih fun c hc => hl c (List.mem_cons_of_mem a hc)]

/-- Helper: `dropWhile` drops a prefix on which the predicate holds. -/
theorem dropWhile_append_all {α : Type} (p : α → Bool) {l : List α} (r : List α)
    (hl : ∀ c ∈ l, p c = true) : (l ++ r).dropWhile p = r.dropWhile p := by
  induction l with
  | nil => simp
  | cons a as ih =>
    simp [List.dropWhile_cons, hl a (List.mem_cons_self a as),
      ih fun c hc => hl c (List.mem_cons_of_mem a hc)]

/-- C8 counterexample: a `Memory Size` field holding the string "128 GB"
is normalized to 0.125 GB, not 128 — the divide-by-1024 heuristic fires on
any value above 100 even when the unit is explicitly GB. -/
theorem claim_C8_counterexample :
    extractMemorySize (rawMemOnly (.str "128 GB")) = 1/8 ∧ (1/8 : ℚ) ≠ 128 := by
  constructor
  · decide
  · norm_num

/-- C8 amended: a `Memory Size` field holding the string "NN GB" (for a
nonempty digit run NN) is normalized to exactly NN when NN ≤ 100, and to
NN / 1024 when NN > 100 — the mis-scale conversion is keyed on the parsed
magnitude alone, never on the unit. -/
theorem claim_C8_amended (ds : List Char) (hne : ds ≠ [])
    (hds : ∀ c ∈ ds, isDigitChar c = true) :
    extractMemorySize (rawMemOnly (.str (String.mk (ds ++ [' ', 'G', 'B'])))) =
      if 100 < (digitsToNat ds : ℚ) then (digitsToNat ds : ℚ) / 1024
      else (digitsToNat ds : ℚ) := by
  obtain ⟨d, ds2, rfl⟩ := List.exists_cons_of_ne_nil hne
  have hdrop : ((d :: ds2) ++ [' ', 'G', 'B']).dropWhile isDigitChar = [' ', 'G', 'B'] := by
    rw [dropWhile_append_all _ _ hds]
    decide
  have htake : ((d :: ds2) ++ [' ', 'G', 'B']).takeWhile isDigitChar = d :: ds2 := by
    rw [takeWhile_append_all _ _ hds]
    rw [show List.takeWhile isDigitChar [' ', 'G', 'B'] = [] from rfl, List.append_nil]
  have hscan : scanBasic ((d :: ds2) ++ [' ', 'G', 'B']) = some (digitsToNat (d :: ds2)) := by
    have hd : isDigitChar d = true := hds d (List.mem_cons_self _ _)
    rw [show (d :: ds2) ++ [' ', 'G', 'B'] = d :: (ds2 ++ [' ', 'G', 'B']) from rfl]
    unfold scanBasic
    rw [if_pos hd]
    rw [show d :: (ds2 ++ [' ', 'G', 'B']) = (d :: ds2) ++ [' ', 'G', 'B'] from rfl]
    rw [hdrop]
    rw [show List.dropWhile isJsWs [' ', 'G', 'B'] = ['G', 'B'] from rfl]
    rw [if_pos (show unitHere ['G', 'B'] = true from rfl)]
    rw [htake]
  have hs_ne : String.mk ((d :: ds2) ++ [' ', 'G', 'B']) ≠ "" := by
    intro hc
    have hdata := congrArg String.data hc
    simp at hdata
  have hfv : memFieldValue (rawMemOnly (.str (String.mk ((d :: ds2) ++ [' ', 'G', 'B']))))
      "Memory Size" = some ((digitsToNat (d :: ds2) : ℕ) : ℚ) := by
    unfold memFieldValue rawMemOnly
    dsimp only
    rw [if_pos rfl]
    dsimp only
    rw [if_neg hs_ne]
    unfold parseMemString
    rw [show (String.mk ((d :: ds2) ++ [' ', 'G', 'B'])).data
        = (d :: ds2) ++ [' ', 'G', 'B'] from rfl]
    unfold parseMemChars
    rw [hscan]
  have hfv1 : memFieldValue (rawMemOnly (.str (String.mk ((d :: ds2) ++ [' ', 'G', 'B']))))
      "Memory Size (GB)" = none := rfl
  have hloop : extractMemLoop (rawMemOnly (.str (String.mk ((d :: ds2) ++ [' ', 'G', 'B']))))
      memoryFields = ((digitsToNat (d :: ds2) : ℕ) : ℚ) := by
    rw [show extractMemLoop (rawMemOnly (.str (String.mk ((d :: ds2) ++ [' ', 'G', 'B']))))
          memoryFields
        = (memFieldValue (rawMemOnly (.str (String.mk ((d :: ds2) ++ [' ', 'G', 'B']))))
            "Memory Size (GB)").getD
            ((memFieldValue (rawMemOnly (.str (String.mk ((d :: ds2) ++ [' ', 'G', 'B']))))
              "Memory Size").getD
              (extractMemLoop (rawMemOnly (.str (String.mk ((d :: ds2) ++ [' ', 'G', 'B']))))
                ["Memory (GB)", "Memory", "VRAM", "Video RAM", "Graphics Memory",
                 "Video Memory", "VRAM Size", "Memory.Size"])) from rfl]
    rw [hfv1, hfv]
    rfl
  simp only [extractMemorySize]
  rw [hloop]

/-- C8 witness: the field "42 GB" extracts to exactly 42. -/
theorem claim_C8_witness :
    extractMemorySize (rawMemOnly (.str (String.mk (['4', '2'] ++ [' ', 'G', 'B'])))) = 42 := by
  have h := claim_C8_amended ['4', '2'] (by decide) (by decide)
  have hd : digitsToNat ['4', '2'] = 42 := by decide
  rw [hd] at h
  rw [h, if_neg (by norm_num)]
  norm_num

/-- Helper: the step-3 fallback database never answers below 2 GB. -/
theorem getVramFromGpuModel_ge_two (s : String) : 2 ≤ getVramFromGpuModel s := by
  simp only [getVramFromGpuModel]
  by_cases h0 : s = ""
  · rw [if_pos h0]
    norm_num
  · rw [if_neg h0]
    by_cases h1 : strIncludes (jsToLower s) "rtx" = true
    · rw [if_pos h1]
      cases hf : firstIncludesMatch (jsToLower s) vramRtxTable with
      | some v =>
        simp only [hf]
        exact firstIncludesMatch_ge (by decide) hf
      | none =>
        simp only [hf]
        cases hg : scanPatDigit ['r', 't', 'x'] (jsToLower s).data with
        | some gen =>
          simp only [hg]
          split_ifs <;> norm_num
        | none =>
          simp only [hg]
          norm_num
    · rw [if_neg h1]
      by_cases h2 : strIncludes (jsToLower s) "gtx" = true
      · rw [if_pos h2]
        cases hf : firstIncludesMatch (jsToLower s) vramGtxTable with
        | some v =>
          simp only [hf, Option.getD_some]
          exact firstIncludesMatch_ge (by decide) hf
        | none =>
          simp only [hf, Option.getD_none]
          norm_num
      · rw [if_neg h2]
        by_cases h3 : (strIncludes (jsToLower s) "radeon" || strIncludes (jsToLower s) "rx") = true
        · rw [if_pos h3]
          cases hf : firstIncludesMatch (jsToLower s) vramRxTable with
          | some v =>
            simp only [hf]
            exact firstIncludesMatch_ge (by decide) hf
          | none =>
            simp only [hf]
            cases hg : scanPatDigit ['r', 'x'] (jsToLower s).data with
            | some gen =>
              simp only [hg]
              split_ifs <;> norm_num
            | none =>
              simp only [hg]
              norm_num
        · rw [if_neg h3]
          cases hf : firstIncludesMatch (jsToLower s) vramProTable with
          | some v =>
            simp only [hf]
            exact firstIncludesMatch_ge (by decide) hf
          | none =>
            simp only [hf]
            by_cases h4 : (strIncludes (jsToLower s) "intel" && strIncludes (jsToLower s) "max") = true
            · rw [if_pos h4]
              split_ifs <;> norm_num
            · rw [if_neg h4]
              cases hf2 : firstIncludesMatch (jsToLower s) vramVendorTable with
              | some v =>
                simp only [hf2, Option.getD_some]
                exact firstIncludesMatch_ge (by decide) hf2
              | none =>
                simp only [hf2, Option.getD_none]
                norm_num

/-- Helper: branch analysis of `Option.or`. -/
theorem option_or_cases {α : Type} {a b : Option α} {v : α} (h : a.or b = some v) :
    a = some v ∨ b = some v := by
  cases a with
  | none =>
    right
    simpa [Option.or] using h
  | some x =>
    left
    simpa [Option.or] using h

/-- Helper: the RTX inference block answers at least 1 GB. -/
theorem inferRtx_ge_one {m : String} {v : ℚ} (h : inferRtx m = some v) : 1 ≤ v := by
  unfold inferRtx at h
  by_cases hc : strIncludes m "rtx" = true
  · rw [if_pos hc] at h
    exact firstIncludesMatch_ge (by decide) h
  · rw [if_neg hc] at h
    simp at h

/-- Helper: the GTX inference block answers at least 1 GB. -/
theorem inferGtx_ge_one {m : String} {v : ℚ} (h : inferGtx m = some v) : 1 ≤ v := by
  unfold inferGtx at h
  by_cases hc : strIncludes m "gtx" = true
  · rw [if_pos hc] at h
    exact firstIncludesMatch_ge (by decide) h
  · rw [if_neg hc] at h
    simp at h

/-- Helper: the Radeon RX inference block answers at least 1 GB. -/
theorem inferRx_ge_one {m : String} {v : ℚ} (h : inferRx m = some v) : 1 ≤ v := by
  unfold inferRx at h
  by_cases hc : (strIncludes m "radeon" || strIncludes m "rx") = true
  · rw [if_pos hc] at h
    exact firstIncludesMatch_ge (by decide) h
  · rw [if_neg hc] at h
    simp at h

/-- Helper: the Quadro inference block answers at least 1 GB. -/
theorem inferQuadro_ge_one {m : String} {v : ℚ} (h : inferQuadro m = some v) : 1 ≤ v := by
  unfold inferQuadro at h
  by_cases hc : strIncludes m "quadro" = true
  · rw [if_pos hc] at h
    exact firstIncludesMatch_ge (by decide) h
  · rw [if_neg hc] at h
    simp at h

/-- Helper: the Apple inference block answers at least 1 GB. -/
theorem inferApple_ge_one {m : String} {v : ℚ} (h : inferApple m = some v) : 1 ≤ v := by
  unfold inferApple at h
  by_cases hc : strIncludes m "apple" = true
  · rw [if_pos hc] at h
    exact firstIncludesNested_ge (by decide) h
  · rw [if_neg hc] at h
    simp at h

/-- Helper: the name inference yields 0 or at least 1 GB. -/
theorem infer_eq_zero_or_ge_one (x : Option JsVal) :
    inferMemorySizeFromModelName x = 0 ∨ 1 ≤ inferMemorySizeFromModelName x := by
  match x with
  | none => left; rfl
  | some (.num q) => left; rfl
  | some (.str s) =>
    simp only [inferMemorySizeFromModelName]
    by_cases h0 : s = ""
    · rw [if_pos h0]
      left
      rfl
    · rw [if_neg h0]
      cases hscan : scanDirectGb (jsToLower s).data with
      | some n =>
        simp only [hscan]
        rcases Nat.eq_zero_or_pos n with h | h
        · left
          rw [h]
          norm_num
        · right
          exact_mod_cast h
      | none =>
        simp only [hscan]
        cases ho : (((((inferRtx (jsToLower s)).or (inferGtx (jsToLower s))).or
            (inferRx (jsToLower s))).or (inferQuadro (jsToLower s))).or
            (inferTesla (jsToLower s))).or (inferApple (jsToLower s)) with
        | none =>
          simp only [ho, Option.getD_none]
          left
          trivial
        | some v =>
          simp only [ho, Option.getD_some]
          right
          rcases option_or_cases ho with h5 | h6
          · rcases option_or_cases h5 with h4 | hT
            · rcases option_or_cases h4 with h3 | hQ
              · rcases option_or_cases h3 with h2 | hR
                · rcases option_or_cases h2 with h1 | hG
                  · exact inferRtx_ge_one h1
                  · exact inferGtx_ge_one hG
                · exact inferRx_ge_one hR
              · exact inferQuadro_ge_one hQ
            · exact inferTesla_ge_one hT
          · exact inferApple_ge_one h6

/-- Helper: the 1-decimal rounding of a positive value is nonnegative. -/
theorem round1dp_nonneg {x : ℚ} (hx : 0 < x) : 0 ≤ round1dp x := by
  unfold round1dp jsRound
  have h1 : (0:ℤ) ≤ ⌊x * 10 + 1/2⌋ := by
    apply Int.floor_nonneg.mpr
    nlinarith
  have h2 : (0:ℚ) ≤ ((⌊x * 10 + 1/2⌋ : ℤ) : ℚ) := by
    exact_mod_cast h1
  exact div_nonneg h2 (by norm_num)

/-- Helper: the 1-decimal rounding stays positive from 0.05 upward. -/
theorem round1dp_pos {x : ℚ} (hx : 1/20 ≤ x) : 0 < round1dp x := by
  unfold round1dp jsRound
  have h1 : (1:ℤ) ≤ ⌊x * 10 + 1/2⌋ := by
    apply Int.le_floor.mpr
    push_cast
    nlinarith
  have h2 : (1:ℚ) ≤ ((⌊x * 10 + 1/2⌋ : ℤ) : ℚ) := by
    exact_mod_cast h1
  apply div_pos (by linarith) (by norm_num)

/-- Helper: the three-step memory resolution always returns a positive
value, and one of at least 0.05 unless the direct extraction produced a
positive value below 0.05. -/
theorem resolvedMemSize_ok {gpu : RawGpu} {m : ℚ} (h : resolvedMemSize gpu = .ok m) :
    0 < m ∧ (¬ (0 < extractMemorySize gpu ∧ extractMemorySize gpu < 1/20) → 1/20 ≤ m) := by
  unfold resolvedMemSize at h
  by_cases h1 : 0 < extractMemorySize gpu
  · rw [if_pos h1] at h
    simp only [Except.ok.injEq] at h
    subst h
    refine ⟨h1, fun hc => ?_⟩
    rcases not_and_or.mp hc with hc1 | hc2
    · exact absurd h1 hc1
    · exact le_of_not_lt hc2
  · rw [if_neg h1] at h
    by_cases h2 : 0 < inferMemorySizeFromModelName gpu.Model
    · rw [if_pos h2] at h
      simp only [Except.ok.injEq] at h
      subst h
      rcases infer_eq_zero_or_ge_one gpu.Model with hz | hge
      · rw [hz] at h2
        norm_num at h2
      · exact ⟨h2, fun _ => le_trans (by norm_num) hge⟩
    · rw [if_neg h2] at h
      cases hM : gpu.Model with
      | none =>
        rw [hM] at h
        simp at h
      | some val =>
        cases val with
        | str s =>
          rw [hM] at h
          simp only [Except.ok.injEq] at h
          subst h
          have hg := getVramFromGpuModel_ge_two (jsToLower s)
          exact ⟨by linarith, fun _ => by linarith⟩
        | num q =>
          rw [hM] at h
          simp at h

/-- Helper: an emitted entry carries the resolved-and-rounded memory
size. -/
theorem vram_of_buildEntry {id : String} {gpu : RawGpu} {m : ℚ} {e : GpuEntry}
    (h : buildEntry id gpu m = some e) : e.vram = m := by
  simp only [buildEntry] at h
  cases hM : gpu.Model with
  | none =>
    rw [hM] at h
    simp at h
  | some val =>
    cases val with
    | str s =>
      rw [hM] at h
      dsimp only at h
      by_cases hc : cleanModelName (gpu.Vendor.getD "") s = ""
      · rw [if_pos hc] at h
        simp at h
      · rw [if_neg hc] at h
        simp only [Option.some.injEq] at h
        rw [← h]
    | num q =>
      rw [hM] at h
      dsimp only at h
      simp only [Option.some.injEq] at h
      rw [← h]

/-- C9 amended: the fallback `getVramFromGpuModel` indeed answers at least
2 GB, and every entry `processRecord` emits has nonnegative vram; the vram
is moreover positive unless the direct field extraction produced a
positive value below 0.05 GB, which the 1-decimal rounding collapses to
exactly 0 — the one family of inputs on which the original claim fails. -/
theorem claim_C9_amended :
    (∀ s : String, 2 ≤ getVramFromGpuModel s) ∧
    ∀ (id : String) (gpu : RawGpu) (e : GpuEntry),
      processRecord id gpu = Except.ok (some e) →
        0 ≤ e.vram ∧
        (¬ (0 < extractMemorySize gpu ∧ extractMemorySize gpu < 1/20) → 0 < e.vram) := by
  refine ⟨getVramFromGpuModel_ge_two, ?_⟩
  intro id gpu e h
  unfold processRecord at h
  by_cases ht : ¬ jsTruthy gpu.Model = true
  · rw [if_pos ht] at h
    simp at h
  · rw [if_neg ht] at h
    cases hres : resolvedMemSize gpu with
    | error u =>
      rw [hres] at h
      simp at h
    | ok mem0 =>
      rw [hres] at h
      dsimp only at h
      simp only [Except.ok.injEq] at h
      obtain ⟨hm0, hm20⟩ := resolvedMemSize_ok hres
      rw [if_pos hm0] at h
      have hv := vram_of_buildEntry h
      rw [hv]
      exact ⟨round1dp_nonneg hm0, fun hc => round1dp_pos (hm20 hc)⟩

/-- C9 counterexample: a record whose `Memory Size` field holds the
number 0.04 passes the model-name check and is emitted with vram exactly
0 (the 1-decimal rounding of 0.04). -/
theorem claim_C9_counterexample :
    processRecord "a" rawTinyNum =
      Except.ok (some
        { id := ("a", JsVal.str "Foo", 0), name := JsVal.str "Foo",
          vendor := "", vram := 0, launchDate := none }) := by
  decide

/-- C9 witness: a GTX 1050 record without memory fields resolves through
the inference table to a positive vram. -/
theorem claim_C9_witness :
    0 ≤ ({ id := ("c", JsVal.str "GTX 1050", 2), name := JsVal.str "GTX 1050",
           vendor := "NVIDIA", vram := 2, launchDate := none } : GpuEntry).vram ∧
    (¬ (0 < extractMemorySize rawGtx1050 ∧ extractMemorySize rawGtx1050 < 1/20) →
      0 < ({ id := ("c", JsVal.str "GTX 1050", 2), name := JsVal.str "GTX 1050",
             vendor := "NVIDIA", vram := 2, launchDate := none } : GpuEntry).vram) :=
  claim_C9_amended.2 "c" rawGtx1050
    { id := ("c", JsVal.str "GTX 1050", 2), name := JsVal.str "GTX 1050",
      vendor := "NVIDIA", vram := 2, launchDate := none }
    (by decide)

end RatEval
